import Mathlib

/-!
Verification of the input-translation core (input_manager.c, touchmap.h and
the touchmap configuration loader) against its natural-language
specification.  The C source is shallowly embedded: machine integers become
Int or Nat (with explicit mod where a C conversion truncates), the outbound
message queue becomes an oracle list of Bool push results, and external
collaborators (clipboard, file dialog, coordinate conversions) become
explicit environment parameters.
-/

namespace Scrcpy

/-! ## SDL and Android constants used by the source -/

def SDL_MAX_SINT16 : Int := 32767

-- SDL_Keymod bits
def KMOD_LSHIFT : Nat := 0x0001
def KMOD_RSHIFT : Nat := 0x0002
def KMOD_LCTRL : Nat := 0x0040
def KMOD_RCTRL : Nat := 0x0080
def KMOD_LALT : Nat := 0x0100
def KMOD_RALT : Nat := 0x0200
def KMOD_LGUI : Nat := 0x0400
def KMOD_RGUI : Nat := 0x0800
def KMOD_CTRL : Nat := KMOD_LCTRL ||| KMOD_RCTRL
def KMOD_SHIFT : Nat := KMOD_LSHIFT ||| KMOD_RSHIFT
def KMOD_ALT : Nat := KMOD_LALT ||| KMOD_RALT
def KMOD_GUI : Nat := KMOD_LGUI ||| KMOD_RGUI

def SC_SDL_SHORTCUT_MODS_MASK : Nat := KMOD_CTRL ||| KMOD_ALT ||| KMOD_GUI

-- SDL keycodes (printable keys are their ASCII code, others are
-- scancode ||| 0x40000000)
def SDLK_UNKNOWN : Int := 0
def SDLK_BACKSPACE : Int := 8
def SDLK_b : Int := 98
def SDLK_c : Int := 99
def SDLK_f : Int := 102
def SDLK_g : Int := 103
def SDLK_h : Int := 104
def SDLK_i : Int := 105
def SDLK_k : Int := 107
def SDLK_m : Int := 109
def SDLK_n : Int := 110
def SDLK_o : Int := 111
def SDLK_p : Int := 112
def SDLK_r : Int := 114
def SDLK_s : Int := 115
def SDLK_t : Int := 116
def SDLK_v : Int := 118
def SDLK_w : Int := 119
def SDLK_x : Int := 120
def SDLK_z : Int := 122
def SDLK_RIGHT : Int := 1073741903
def SDLK_LEFT : Int := 1073741904
def SDLK_DOWN : Int := 1073741905
def SDLK_UP : Int := 1073741906
def SDLK_LCTRL : Int := 1073742048
def SDLK_LSHIFT : Int := 1073742049
def SDLK_LALT : Int := 1073742050
def SDLK_LGUI : Int := 1073742051
def SDLK_RCTRL : Int := 1073742052
def SDLK_RSHIFT : Int := 1073742053
def SDLK_RALT : Int := 1073742054
def SDLK_RGUI : Int := 1073742055

-- SDL_GameControllerButton (an int in C; INVALID is -1)
def SDL_CONTROLLER_BUTTON_INVALID : Int := -1
def SDL_CONTROLLER_BUTTON_A : Int := 0
def SDL_CONTROLLER_BUTTON_B : Int := 1
def SDL_CONTROLLER_BUTTON_X : Int := 2
def SDL_CONTROLLER_BUTTON_Y : Int := 3
def SDL_CONTROLLER_BUTTON_BACK : Int := 4
def SDL_CONTROLLER_BUTTON_GUIDE : Int := 5
def SDL_CONTROLLER_BUTTON_START : Int := 6
def SDL_CONTROLLER_BUTTON_LEFTSTICK : Int := 7
def SDL_CONTROLLER_BUTTON_RIGHTSTICK : Int := 8
def SDL_CONTROLLER_BUTTON_LEFTSHOULDER : Int := 9
def SDL_CONTROLLER_BUTTON_RIGHTSHOULDER : Int := 10
def SDL_CONTROLLER_BUTTON_DPAD_UP : Int := 11
def SDL_CONTROLLER_BUTTON_DPAD_DOWN : Int := 12
def SDL_CONTROLLER_BUTTON_DPAD_LEFT : Int := 13
def SDL_CONTROLLER_BUTTON_DPAD_RIGHT : Int := 14
def SDL_CONTROLLER_BUTTON_MISC1 : Int := 15
def SDL_CONTROLLER_BUTTON_PADDLE1 : Int := 16
def SDL_CONTROLLER_BUTTON_PADDLE2 : Int := 17
def SDL_CONTROLLER_BUTTON_PADDLE3 : Int := 18
def SDL_CONTROLLER_BUTTON_PADDLE4 : Int := 19
def SDL_CONTROLLER_BUTTON_TOUCHPAD : Int := 20
def SDL_CONTROLLER_BUTTON_MAX : Int := 21

-- SDL_GameControllerAxis
def SDL_CONTROLLER_AXIS_LEFTX : Nat := 0
def SDL_CONTROLLER_AXIS_LEFTY : Nat := 1
def SDL_CONTROLLER_AXIS_RIGHTX : Nat := 2
def SDL_CONTROLLER_AXIS_RIGHTY : Nat := 3
def SDL_CONTROLLER_AXIS_TRIGGERLEFT : Nat := 4
def SDL_CONTROLLER_AXIS_TRIGGERRIGHT : Nat := 5

-- SDL mouse buttons
def SDL_BUTTON_LEFT : Nat := 1
def SDL_BUTTON_MIDDLE : Nat := 2
def SDL_BUTTON_RIGHT : Nat := 3
def SDL_BUTTON_X1 : Nat := 4
def SDL_BUTTON_X2 : Nat := 5

-- SDL_TOUCH_MOUSEID is ((Uint32)-1)
def SDL_TOUCH_MOUSEID : Nat := 4294967295

-- android keycodes used via send_keycode
def AKEYCODE_HOME : Nat := 3
def AKEYCODE_BACK : Nat := 4
def AKEYCODE_VOLUME_UP : Nat := 24
def AKEYCODE_VOLUME_DOWN : Nat := 25
def AKEYCODE_POWER : Nat := 26
def AKEYCODE_MENU : Nat := 82
def AKEYCODE_APP_SWITCH : Nat := 187

-- enum sc_copy_key
def SC_COPY_KEY_COPY : Nat := 1
def SC_COPY_KEY_CUT : Nat := 2

-- enum sc_screen_power_mode
def SC_SCREEN_POWER_MODE_OFF : Nat := 0
def SC_SCREEN_POWER_MODE_NORMAL : Nat := 2

-- enum sc_orientation transform codes passed to the screen collaborator
def SC_ORIENTATION_90 : Nat := 1
def SC_ORIENTATION_270 : Nat := 3
def SC_ORIENTATION_FLIP_0 : Nat := 4
def SC_ORIENTATION_FLIP_180 : Nat := 6

-- enum sc_mouse_binding codes (only equality on them matters here)
def SC_MOUSE_BINDING_AUTO : Nat := 0
def SC_MOUSE_BINDING_DISABLED : Nat := 1
def SC_MOUSE_BINDING_CLICK : Nat := 2
def SC_MOUSE_BINDING_BACK : Nat := 3
def SC_MOUSE_BINDING_HOME : Nat := 4
def SC_MOUSE_BINDING_APP_SWITCH : Nat := 5
def SC_MOUSE_BINDING_EXPAND_NOTIFICATION_PANEL : Nat := 6

-- pointer ids (uint64 values from input_events.h, which is not under src/;
-- only their distinctness from the touchmap finger ids matters here)
def POINTER_ID_MOUSE : Nat := 2 ^ 64 - 1
def POINTER_ID_GENERIC_FINGER : Nat := 2 ^ 64 - 2
def POINTER_ID_VIRTUAL_MOUSE : Nat := 2 ^ 64 - 3
def POINTER_ID_VIRTUAL_FINGER : Nat := 2 ^ 64 - 4

def SC_SEQUENCE_INVALID : Nat := 0

/-- C conversion of an int value to uint8_t (reduction modulo 256). -/
def toU8 (v : Int) : Nat := (v % 256).toNat

/-! ## touchmap.h data model -/

def SC_GPTM_BASE_FINGER_ID : Nat := 100

def SC_GPTM_WALK_CONTROL_DEADZONE : Int := 25

structure sc_point where
  x : Int
  y : Int
deriving DecidableEq, Repr

structure sc_size where
  width : Int
  height : Int
deriving DecidableEq, Repr

structure sc_gptm_walk_control where
  center : sc_point
  radius : Int
  current_pos : sc_point
  touch_down : Bool
  finger_id : Nat
deriving DecidableEq, Repr

structure sc_gptm_touch_button where
  center : sc_point
  radius : Int
  current_pos : sc_point
  touch_down : Bool
  finger_id : Nat
  button : Nat      -- uint8_t
  is_skill : Bool
deriving DecidableEq, Repr

/-- struct sc_gptm_gamepad_touchmap; the flexible array member together with
button_cnt becomes a list (button_cnt is the list length). -/
structure sc_gptm_gamepad_touchmap where
  walk : sc_gptm_walk_control
  buttons : List sc_gptm_touch_button
deriving DecidableEq, Repr

/-! ## button_name_to_value (unnamed source file, lines 13-38)

Note the duplicated "L2" comparison on the RT line, faithfully reproduced
from the source. -/

def button_name_to_value (button_name : String) : Int :=
  if button_name == "A" then SDL_CONTROLLER_BUTTON_A
  else if button_name == "B" then SDL_CONTROLLER_BUTTON_B
  else if button_name == "X" then SDL_CONTROLLER_BUTTON_X
  else if button_name == "Y" then SDL_CONTROLLER_BUTTON_Y
  else if button_name == "BACK" || button_name == "SELECT" then SDL_CONTROLLER_BUTTON_BACK
  else if button_name == "GUIDE" || button_name == "HOME" then SDL_CONTROLLER_BUTTON_GUIDE
  else if button_name == "START" then SDL_CONTROLLER_BUTTON_START
  else if button_name == "LTHUMB" || button_name == "L3" then SDL_CONTROLLER_BUTTON_LEFTSTICK
  else if button_name == "RTHUMB" || button_name == "R3" then SDL_CONTROLLER_BUTTON_RIGHTSTICK
  else if button_name == "LB" || button_name == "L1" then SDL_CONTROLLER_BUTTON_LEFTSHOULDER
  else if button_name == "RB" || button_name == "R1" then SDL_CONTROLLER_BUTTON_RIGHTSHOULDER
  else if button_name == "UP" then SDL_CONTROLLER_BUTTON_DPAD_UP
  else if button_name == "DOWN" then SDL_CONTROLLER_BUTTON_DPAD_DOWN
  else if button_name == "LEFT" then SDL_CONTROLLER_BUTTON_DPAD_LEFT
  else if button_name == "RIGHT" then SDL_CONTROLLER_BUTTON_DPAD_RIGHT
  else if button_name == "MISC" then SDL_CONTROLLER_BUTTON_MISC1
  else if button_name == "PADDLE1" then SDL_CONTROLLER_BUTTON_PADDLE1
  else if button_name == "PADDLE2" then SDL_CONTROLLER_BUTTON_PADDLE2
  else if button_name == "PADDLE3" then SDL_CONTROLLER_BUTTON_PADDLE3
  else if button_name == "PADDLE4" then SDL_CONTROLLER_BUTTON_PADDLE4
  else if button_name == "TOUCHPAD" then SDL_CONTROLLER_BUTTON_TOUCHPAD
  else if button_name == "LT" || button_name == "L2" then
    SDL_CONTROLLER_BUTTON_MAX + (SDL_CONTROLLER_AXIS_TRIGGERLEFT : Int)
  else if button_name == "RT" || button_name == "L2" then
    SDL_CONTROLLER_BUTTON_MAX + (SDL_CONTROLLER_AXIS_TRIGGERRIGHT : Int)
  else SDL_CONTROLLER_BUTTON_INVALID

/-! ## cJSON values

The parsed JSON tree produced by cJSON_Parse.  JSON numbers in the
touchmap files are integers, read through the valueint field. -/

inductive JVal where
  | null : JVal
  | jbool : Bool → JVal
  | num : Int → JVal
  | str : String → JVal
  | arr : List JVal → JVal
  | obj : List (String × JVal) → JVal

/-- Byte-wise tolower as used by the case-insensitive comparison of cJSON
(the touchmap keys are ASCII). -/
def lowerCode (c : Char) : Nat :=
  if 65 ≤ c.toNat && c.toNat ≤ 90 then c.toNat + 32 else c.toNat

def ciEq (a b : String) : Bool :=
  a.data.map lowerCode == b.data.map lowerCode

/-- cJSON object lookup is case-insensitive (cJSON_GetObjectItem calls the
case-insensitive variant); on a non-object it returns NULL. -/
def cJSON_GetObjectItem (j : JVal) (key : String) : Option JVal :=
  match j with
  | .obj fields => (fields.find? (fun p => ciEq p.1 key)).map (fun p => p.2)
  | _ => none

/-- The valueint field: set by the number parser, zero otherwise. -/
def valueint : JVal → Int
  | .num n => n
  | _ => 0

/-- The valuestring field: NULL (none) unless the item is a string. -/
def valuestring : JVal → Option String
  | .str s => some s
  | _ => none

/-- The items of mappings.key when it is present and an array, as used for
the btn_cnt / skill_cnt computation and the GetArrayItem loops. -/
def entriesOf (mappings : JVal) (key : String) : List JVal :=
  match cJSON_GetObjectItem mappings key with
  | some (.arr items) => items
  | _ => []

/-! ## parse_touchmap_config (unnamed source file, lines 49-185)

File IO is abstracted away: the function is modelled from the parsed JSON
root on, with none standing for a missing filename, an unreadable file or
a cJSON parse error.  Where the C source would dereference a NULL pointer
(a center object without x or y, or a button field that is not a string),
the model returns none. -/

def zeroPoint : sc_point := { x := 0, y := 0 }

/-- A buttons array slot left untouched after the memset. -/
def zeroTouchButton : sc_gptm_touch_button :=
  { center := zeroPoint, radius := 0, current_pos := zeroPoint,
    touch_down := false, finger_id := 0, button := 0, is_skill := false }

def zeroWalkControl : sc_gptm_walk_control :=
  { center := zeroPoint, radius := 0, current_pos := zeroPoint,
    touch_down := false, finger_id := 0 }

/-- The button_mappings loop (lines 135-154): entries with both fields fill
the next slot and consume the next finger id; incomplete entries are
skipped without advancing the slot pointer. -/
def parseButtonEntries : List JVal → Nat → Option (List sc_gptm_touch_button × Nat)
  | [], fid => some ([], fid)
  | item :: rest, fid =>
    match cJSON_GetObjectItem item "touch", cJSON_GetObjectItem item "button" with
    | some center, some trigger =>
      match cJSON_GetObjectItem center "x", cJSON_GetObjectItem center "y",
            valuestring trigger with
      | some jx, some jy, some btn_name =>
        let touch_btn : sc_gptm_touch_button :=
          { center := { x := valueint jx, y := valueint jy }, radius := 0,
            current_pos := zeroPoint, touch_down := false, finger_id := fid,
            button := toU8 (button_name_to_value btn_name), is_skill := false }
        (parseButtonEntries rest (fid + 1)).map (fun r => (touch_btn :: r.1, r.2))
      | _, _, _ => none
    | _, _ => parseButtonEntries rest fid

/-- The skill_casting loop (lines 156-175). -/
def parseSkillEntries : List JVal → Nat → Option (List sc_gptm_touch_button × Nat)
  | [], fid => some ([], fid)
  | item :: rest, fid =>
    match cJSON_GetObjectItem item "center", cJSON_GetObjectItem item "radius",
          cJSON_GetObjectItem item "button" with
    | some center, some radius, some trigger =>
      match cJSON_GetObjectItem center "x", cJSON_GetObjectItem center "y",
            valuestring trigger with
      | some jx, some jy, some btn_name =>
        let touch_btn : sc_gptm_touch_button :=
          { center := { x := valueint jx, y := valueint jy },
            radius := valueint radius,
            current_pos := zeroPoint, touch_down := false, finger_id := fid,
            button := toU8 (button_name_to_value btn_name), is_skill := true }
        (parseSkillEntries rest (fid + 1)).map (fun r => (touch_btn :: r.1, r.2))
      | _, _, _ => none
    | _, _, _ => parseSkillEntries rest fid

/-- The walk_control block (lines 119-132): returns the walk control and
the next free finger id; the id is consumed only when both center and
radius are present. -/
def parseWalkControl (mappings : JVal) (fid : Nat) :
    Option (sc_gptm_walk_control × Nat) :=
  match cJSON_GetObjectItem mappings "walk_control" with
  | none => some (zeroWalkControl, fid)
  | some walk_control =>
    match cJSON_GetObjectItem walk_control "center",
          cJSON_GetObjectItem walk_control "radius" with
    | some center, some radius =>
      match cJSON_GetObjectItem center "x", cJSON_GetObjectItem center "y" with
      | some jx, some jy =>
        some ({ center := { x := valueint jx, y := valueint jy },
                radius := valueint radius, current_pos := zeroPoint,
                touch_down := false, finger_id := fid }, fid + 1)
      | _, _ => none
    | _, _ => some (zeroWalkControl, fid)

/-- The qsort on the buttons array with comparator sc_gptm_compare_btn
(difference of the uint8 button codes).  qsort yields an array sorted by
that comparator; the order among equal codes is unspecified, modelled with
insertion sort. -/
def sortButtons (l : List sc_gptm_touch_button) : List sc_gptm_touch_button :=
  List.insertionSort (fun a b => a.button ≤ b.button) l

def parse_touchmap_config (root : Option JVal) : Option sc_gptm_gamepad_touchmap :=
  match root with
  | none => none
  | some root =>
    match cJSON_GetObjectItem root "mappings" with
    | none => none
    | some mappings =>
      let btn_items := entriesOf mappings "button_mappings"
      let skill_items := entriesOf mappings "skill_casting"
      let btn_cnt := btn_items.length
      let skill_cnt := skill_items.length
      match parseWalkControl mappings SC_GPTM_BASE_FINGER_ID with
      | none => none
      | some (walk, fid) =>
        match parseButtonEntries btn_items fid with
        | none => none
        | some (btns, fid2) =>
          match parseSkillEntries skill_items fid2 with
          | none => none
          | some (skills, _) =>
            let filled := btns ++ skills
            let buttons :=
              filled ++ List.replicate (btn_cnt + skill_cnt - filled.length)
                zeroTouchButton
            some { walk := walk, buttons := sortButtons buttons }

/-! ## Outbound control messages and observable effects -/

inductive TouchAction where
  | down | up | move
deriving DecidableEq, Repr

inductive ControlMsg where
  | injectKeycode (keycode : Nat) (down : Bool)
  | backOrScreenOn (down : Bool)
  | expandNotificationPanel
  | expandSettingsPanel
  | collapsePanels
  | getClipboard (copy_key : Nat)
  | setClipboard (sequence : Nat) (text : String) (paste : Bool)
  | setScreenPowerMode (mode : Nat)
  | injectText (text : String)
  | injectTouchEvent (action : TouchAction) (screen_size : sc_size)
      (point : sc_point) (pointer_id : Nat)
  | rotateDevice
  | openHardKeyboardSettings
  | gcAxis (which : Int) (axis : Nat) (value : Int)
  | gcButton (which : Int) (button : Nat) (state : Nat)
deriving DecidableEq, Repr

/-- Everything the input manager can be observed doing: a push to the
outbound queue (with the Bool push result), a delegation to the key or
mouse processor, or a local call on the screen collaborator. -/
inductive Effect where
  | pushMsg (m : ControlMsg) (delivered : Bool)
  | processKey (keycode : Int) (down : Bool) (rep : Bool) (mod : Nat) (ack_to_wait : Nat)
  | processMouseClick (button : Nat) (down : Bool)
  | processMouseMotion (x y : Int)
  | screenSetPaused (paused : Bool)
  | applyOrientationTransform (transform : Nat)
  | switchFullscreen
  | resizeToFit
  | resizePixelPerfect
  | switchFpsCounterState
deriving DecidableEq, Repr

/-! ## The outbound queue

sc_controller_push_msg is non-blocking and may fail; the queue is
modelled by an oracle list of push results, consumed from the head (an
exhausted oracle means success). -/

def pushOk (q : List Bool) : Bool := q.headD true

def pushRest (q : List Bool) : List Bool := q.tail

/-- Push one message: the result, the remaining oracle and the recorded
effect. -/
def pushE (q : List Bool) (m : ControlMsg) : Bool × List Bool × List Effect :=
  (pushOk q, pushRest q, [Effect.pushMsg m (pushOk q)])

/-! ## Input manager state (struct sc_input_manager plus the screen flags
it reads) -/

structure IMState where
  controller : Bool          -- controller handle present
  kp : Bool                  -- key processor present
  kp_hid : Bool
  kp_async_paste : Bool
  mp : Bool                  -- mouse processor present
  mp_relative_mode : Bool
  paused : Bool              -- screen->paused
  video : Bool               -- screen->video
  frame_size : sc_size       -- screen->frame_size
  rect_x : Int               -- screen->rect
  rect_y : Int
  rect_w : Int
  rect_h : Int
  right_click : Nat          -- mouse_bindings
  middle_click : Nat
  click4 : Nat
  click5 : Nat
  has_secondary_click : Bool
  forward_game_controllers : Bool
  legacy_paste : Bool
  clipboard_autosync : Bool
  sdl_shortcut_mods : Nat
  vfinger_down : Bool
  vfinger_invert_x : Bool
  vfinger_invert_y : Bool
  last_keycode : Int
  last_mod : Nat
  key_repeat : Nat
  next_sequence : Nat
  game_touchmap : Option sc_gptm_gamepad_touchmap
deriving DecidableEq, Repr

/-- External collaborators read during event processing. -/
structure Env where
  clipboardText : Option String             -- SDL_GetClipboardText
  dialogFile : Option String                -- tinyfd_openFileDialog
  parseFile : String → Option sc_gptm_gamepad_touchmap
  winToFrame : Int → Int → sc_point         -- window to frame coords
  hidpiScale : Int → Int → Int × Int        -- sc_screen_hidpi_scale_coords
  mouseState : Nat                          -- SDL_GetMouseState buttons
  keymod : Nat                              -- SDL_GetModState

/-! ## Virtual touch simulation (input_manager.c lines 381-429) -/

def simulate_virtual_touch (im : IMState) (q : List Bool) (touch_id : Nat)
    (action : TouchAction) (point : sc_point) : Bool × List Bool × List Effect :=
  pushE q (ControlMsg.injectTouchEvent action im.frame_size point touch_id)

def simulate_virtual_finger (im : IMState) (q : List Bool)
    (action : TouchAction) (point : sc_point) : Bool × List Bool × List Effect :=
  simulate_virtual_touch im q
    (if im.has_secondary_click then POINTER_ID_VIRTUAL_MOUSE
     else POINTER_ID_VIRTUAL_FINGER) action point

def inverse_point (point : sc_point) (size : sc_size)
    (invert_x invert_y : Bool) : sc_point :=
  let point := if invert_x then { point with x := size.width - point.x } else point
  if invert_y then { point with y := size.height - point.y } else point

/-! ## Gamepad touchmap engine (input_manager.c lines 1119-1192)

The handlers only touch the map contents, the queue and the frame size, so
they are stated on those; the dispatcher reassembles the state. -/

/-- bsearch over the sorted buttons array, glibc halving scheme; the
comparator is sc_gptm_compare_btn.  The fuel argument only bounds the
recursion depth (each step shrinks the range, so any fuel larger than the
range size gives the bsearch result); it keeps the recursion structural. -/
def bsearchButtonsIdx (btns : List sc_gptm_touch_button) (button : Nat) :
    Nat → Nat → Nat → Option Nat
  | 0, _, _ => none
  | fuel + 1, lo, hi =>
    if lo < hi then
      match btns[(lo + hi) / 2]? with
      | none => none
      | some b =>
        if button < b.button then
          bsearchButtonsIdx btns button fuel lo ((lo + hi) / 2)
        else if b.button < button then
          bsearchButtonsIdx btns button fuel ((lo + hi) / 2 + 1) hi
        else some ((lo + hi) / 2)
    else none

/-- sc_handle_touchmap_button (lines 1119-1140). -/
def sc_handle_touchmap_button (im : IMState) (btns : List sc_gptm_touch_button)
    (q : List Bool) (button : Nat) (state : Nat) :
    List sc_gptm_touch_button × List Bool × List Effect :=
  match bsearchButtonsIdx btns button (btns.length + 1) 0 btns.length with
  | none => (btns, q, [])
  | some i =>
    match btns[i]? with
    | none => (btns, q, [])
    | some touch_btn =>
      if state ≠ 0 then
        if ¬touch_btn.touch_down then
          let btns := btns.set i { touch_btn with touch_down := true }
          let (_, q, effs) := simulate_virtual_touch im q touch_btn.finger_id
            TouchAction.down touch_btn.center
          (btns, q, effs)
        else (btns, q, [])
      else
        if touch_btn.touch_down then
          let btns := btns.set i { touch_btn with touch_down := false }
          let (_, q, effs) := simulate_virtual_touch im q touch_btn.finger_id
            TouchAction.up touch_btn.center
          (btns, q, effs)
        else (btns, q, [])

/-- sc_handle_touchmap_walk (lines 1142-1169).  The divisions are C int64
divisions, truncating toward zero. -/
def sc_handle_touchmap_walk (im : IMState) (walk : sc_gptm_walk_control)
    (q : List Bool) (is_x_axis : Bool) (value : Int) :
    sc_gptm_walk_control × List Bool × List Effect :=
  let walk :=
    if is_x_axis then
      { walk with current_pos :=
          { walk.current_pos with
            x := walk.center.x + Int.tdiv (value * walk.radius) SDL_MAX_SINT16 } }
    else
      { walk with current_pos :=
          { walk.current_pos with
            y := walk.center.y + Int.tdiv (value * walk.radius) SDL_MAX_SINT16 } }
  let wctl_x := walk.current_pos.x - walk.center.x
  let wctl_y := walk.current_pos.y - walk.center.y
  let distance := wctl_x * wctl_x + wctl_y * wctl_y
  if distance < SC_GPTM_WALK_CONTROL_DEADZONE then
    if walk.touch_down then
      let walk := { walk with touch_down := false }
      let (_, q, effs) := simulate_virtual_touch im q walk.finger_id
        TouchAction.up walk.center
      (walk, q, effs)
    else (walk, q, [])
  else
    if ¬walk.touch_down then
      let walk := { walk with touch_down := true }
      let (_, q, effs1) := simulate_virtual_touch im q walk.finger_id
        TouchAction.down walk.center
      let (_, q, effs2) := simulate_virtual_touch im q walk.finger_id
        TouchAction.move walk.current_pos
      (walk, q, effs1 ++ effs2)
    else
      let (_, q, effs) := simulate_virtual_touch im q walk.finger_id
        TouchAction.move walk.current_pos
      (walk, q, effs)

/-- sc_handle_skill_button_direction (lines 1171-1180). -/
def sc_handle_skill_button_direction (im : IMState)
    (touch_btn : sc_gptm_touch_button) (q : List Bool)
    (is_x_axis : Bool) (value : Int) :
    sc_gptm_touch_button × List Bool × List Effect :=
  let touch_btn :=
    if is_x_axis then
      { touch_btn with current_pos :=
          { touch_btn.current_pos with
            x := touch_btn.center.x + Int.tdiv (value * touch_btn.radius) SDL_MAX_SINT16 } }
    else
      { touch_btn with current_pos :=
          { touch_btn.current_pos with
            y := touch_btn.center.y + Int.tdiv (value * touch_btn.radius) SDL_MAX_SINT16 } }
  let (_, q, effs) := simulate_virtual_touch im q touch_btn.finger_id
    TouchAction.move touch_btn.current_pos
  (touch_btn, q, effs)

/-- The loop body of sc_handle_touchmap_skill_cast (lines 1182-1192). -/
def skillCastLoop (im : IMState) (btns : List sc_gptm_touch_button)
    (q : List Bool) (is_x_axis : Bool) (value : Int) :
    List sc_gptm_touch_button × List Bool × List Effect :=
  match btns with
  | [] => ([], q, [])
  | btn :: rest =>
    if btn.is_skill && btn.touch_down then
      let (btn', q1, effs1) := sc_handle_skill_button_direction im btn q is_x_axis value
      let (rest', q2, effs2) := skillCastLoop im rest q1 is_x_axis value
      (btn' :: rest', q2, effs1 ++ effs2)
    else
      let (rest', q2, effs2) := skillCastLoop im rest q is_x_axis value
      (btn :: rest', q2, effs2)

def sc_handle_touchmap_skill_cast (im : IMState)
    (map : sc_gptm_gamepad_touchmap) (q : List Bool)
    (is_x_axis : Bool) (value : Int) :
    sc_gptm_gamepad_touchmap × List Bool × List Effect :=
  let (btns, q, effs) := skillCastLoop im map.buttons q is_x_axis value
  ({ map with buttons := btns }, q, effs)

/-! ## Shortcut classification (input_manager.c lines 39-56) -/

def is_shortcut_mod (im : IMState) (sdl_mod : Nat) : Bool :=
  ((sdl_mod &&& SC_SDL_SHORTCUT_MODS_MASK) &&& im.sdl_shortcut_mods) ≠ 0

def is_shortcut_key (im : IMState) (keycode : Int) : Bool :=
  (im.sdl_shortcut_mods &&& KMOD_LCTRL ≠ 0 && keycode == SDLK_LCTRL)
  || (im.sdl_shortcut_mods &&& KMOD_RCTRL ≠ 0 && keycode == SDLK_RCTRL)
  || (im.sdl_shortcut_mods &&& KMOD_LALT ≠ 0 && keycode == SDLK_LALT)
  || (im.sdl_shortcut_mods &&& KMOD_RALT ≠ 0 && keycode == SDLK_RALT)
  || (im.sdl_shortcut_mods &&& KMOD_LGUI ≠ 0 && keycode == SDLK_LGUI)
  || (im.sdl_shortcut_mods &&& KMOD_RGUI ≠ 0 && keycode == SDLK_RGUI)

/-! ## Remote actions and clipboard helpers (input_manager.c lines 111-359) -/

def send_keycode (q : List Bool) (keycode : Nat) (down : Bool) :
    List Bool × List Effect :=
  let (_, q, effs) := pushE q (ControlMsg.injectKeycode keycode down)
  (q, effs)

def press_back_or_turn_screen_on (q : List Bool) (down : Bool) :
    List Bool × List Effect :=
  let (_, q, effs) := pushE q (ControlMsg.backOrScreenOn down)
  (q, effs)

def expand_notification_panel (q : List Bool) : List Bool × List Effect :=
  let (_, q, effs) := pushE q ControlMsg.expandNotificationPanel
  (q, effs)

def expand_settings_panel (q : List Bool) : List Bool × List Effect :=
  let (_, q, effs) := pushE q ControlMsg.expandSettingsPanel
  (q, effs)

def collapse_panels (q : List Bool) : List Bool × List Effect :=
  let (_, q, effs) := pushE q ControlMsg.collapsePanels
  (q, effs)

def get_device_clipboard (q : List Bool) (copy_key : Nat) :
    Bool × List Bool × List Effect :=
  pushE q (ControlMsg.getClipboard copy_key)

/-- set_device_clipboard (lines 236-267); the strdup of a retrieved
clipboard text is assumed to succeed. -/
def set_device_clipboard (env : Env) (q : List Bool) (paste : Bool)
    (sequence : Nat) : Bool × List Bool × List Effect :=
  match env.clipboardText with
  | none => (false, q, [])
  | some text => pushE q (ControlMsg.setClipboard sequence text paste)

def set_screen_power_mode (q : List Bool) (mode : Nat) :
    List Bool × List Effect :=
  let (_, q, effs) := pushE q (ControlMsg.setScreenPowerMode mode)
  (q, effs)

/-- clipboard_paste (lines 297-326). -/
def clipboard_paste (env : Env) (q : List Bool) : List Bool × List Effect :=
  match env.clipboardText with
  | none => (q, [])
  | some text =>
    if text == "" then (q, [])
    else
      let (_, q, effs) := pushE q (ControlMsg.injectText text)
      (q, effs)

def rotate_device (q : List Bool) : List Bool × List Effect :=
  let (_, q, effs) := pushE q ControlMsg.rotateDevice
  (q, effs)

def open_hard_keyboard_settings (q : List Bool) : List Bool × List Effect :=
  let (_, q, effs) := pushE q ControlMsg.openHardKeyboardSettings
  (q, effs)

/-! ## Touchmap loading shortcuts (input_manager.c lines 431-471) -/

/-- open_touchmap_file: the current map is freed and cleared before the
newly selected file is parsed. -/
def open_touchmap_file (im : IMState) (env : Env) : IMState :=
  match env.dialogFile with
  | none => im
  | some file_name =>
    let im := { im with game_touchmap := none }
    match env.parseFile file_name with
    | none => im
    | some map => { im with game_touchmap := some map,
                            forward_game_controllers := false }

def turn_off_touchmap (im : IMState) : IMState :=
  { im with game_touchmap := none, forward_game_controllers := true }

/-! ## sc_input_manager_process_key (input_manager.c lines 473-715) -/

structure KeyEvent where
  down : Bool       -- event->type == SDL_KEYDOWN
  keycode : Int     -- event->keysym.sym
  mod : Nat         -- event->keysym.mod
  rep : Bool        -- event->repeat
deriving DecidableEq, Repr

/-- The repeat tracking at lines 495-503. -/
def updateKeyRepeat (im : IMState) (e : KeyEvent) : IMState :=
  if e.down && !e.rep then
    if e.keycode == im.last_keycode && e.mod == im.last_mod then
      { im with key_repeat := im.key_repeat + 1 }
    else
      { im with key_repeat := 0, last_keycode := e.keycode, last_mod := e.mod }
  else im

/-- The case labels of the shortcut switch at lines 505-667. -/
inductive ShortcutCase where
  | kh | kb | ks | km | kp | ko | kz | kdown | kup | kleft | kright
  | kc | kx | kv | kf | kw | kg | ki | kn | kr | kk | kt | other
deriving DecidableEq, Repr

/-- Which case label of the switch a keycode selects (SDLK_b and
SDLK_BACKSPACE share a fall-through case). -/
def shortcutCaseOf (keycode : Int) : ShortcutCase :=
  if keycode == SDLK_h then .kh
  else if keycode == SDLK_b || keycode == SDLK_BACKSPACE then .kb
  else if keycode == SDLK_s then .ks
  else if keycode == SDLK_m then .km
  else if keycode == SDLK_p then .kp
  else if keycode == SDLK_o then .ko
  else if keycode == SDLK_z then .kz
  else if keycode == SDLK_DOWN then .kdown
  else if keycode == SDLK_UP then .kup
  else if keycode == SDLK_LEFT then .kleft
  else if keycode == SDLK_RIGHT then .kright
  else if keycode == SDLK_c then .kc
  else if keycode == SDLK_x then .kx
  else if keycode == SDLK_v then .kv
  else if keycode == SDLK_f then .kf
  else if keycode == SDLK_w then .kw
  else if keycode == SDLK_g then .kg
  else if keycode == SDLK_i then .ki
  else if keycode == SDLK_n then .kn
  else if keycode == SDLK_r then .kr
  else if keycode == SDLK_k then .kk
  else if keycode == SDLK_t then .kt
  else .other

/-- One case of the shortcut switch at lines 505-667. -/
def shortcutSwitch (im : IMState) (env : Env) (q : List Bool) (e : KeyEvent) :
    ShortcutCase → IMState × List Bool × List Effect :=
  let control := im.controller
  let paused := im.paused
  let video := im.video
  let down := e.down
  let shift := (e.mod &&& KMOD_SHIFT) ≠ 0
  let rep := e.rep
  fun c => match c with
  | .kh =>
    if im.kp && !shift && !rep && !paused then
      let (q, effs) := send_keycode q AKEYCODE_HOME down
      (im, q, effs)
    else (im, q, [])
  | .kb =>
    if im.kp && !shift && !rep && !paused then
      let (q, effs) := send_keycode q AKEYCODE_BACK down
      (im, q, effs)
    else (im, q, [])
  | .ks =>
    if im.kp && !shift && !rep && !paused then
      let (q, effs) := send_keycode q AKEYCODE_APP_SWITCH down
      (im, q, effs)
    else (im, q, [])
  | .km =>
    if im.kp && !shift && !rep && !paused then
      let (q, effs) := send_keycode q AKEYCODE_MENU down
      (im, q, effs)
    else (im, q, [])
  | .kp =>
    if im.kp && !shift && !rep && !paused then
      let (q, effs) := send_keycode q AKEYCODE_POWER down
      (im, q, effs)
    else (im, q, [])
  | .ko =>
    if control && !rep && down && !paused then
      let mode := if shift then SC_SCREEN_POWER_MODE_NORMAL
                  else SC_SCREEN_POWER_MODE_OFF
      let (q, effs) := set_screen_power_mode q mode
      (im, q, effs)
    else (im, q, [])
  | .kz =>
    if video && down && !rep then
      (im, q, [Effect.screenSetPaused (!shift)])
    else (im, q, [])
  | .kdown =>
    if shift then
      if video && !rep && down then
        (im, q, [Effect.applyOrientationTransform SC_ORIENTATION_FLIP_180])
      else (im, q, [])
    else if im.kp && !paused then
      let (q, effs) := send_keycode q AKEYCODE_VOLUME_DOWN down
      (im, q, effs)
    else (im, q, [])
  | .kup =>
    if shift then
      if video && !rep && down then
        (im, q, [Effect.applyOrientationTransform SC_ORIENTATION_FLIP_180])
      else (im, q, [])
    else if im.kp && !paused then
      let (q, effs) := send_keycode q AKEYCODE_VOLUME_UP down
      (im, q, effs)
    else (im, q, [])
  | .kleft =>
    if video && !rep && down then
      if shift then
        (im, q, [Effect.applyOrientationTransform SC_ORIENTATION_FLIP_0])
      else
        (im, q, [Effect.applyOrientationTransform SC_ORIENTATION_270])
    else (im, q, [])
  | .kright =>
    if video && !rep && down then
      if shift then
        (im, q, [Effect.applyOrientationTransform SC_ORIENTATION_FLIP_0])
      else
        (im, q, [Effect.applyOrientationTransform SC_ORIENTATION_90])
    else (im, q, [])
  | .kc =>
    if im.kp && !shift && !rep && down && !paused then
      let (_, q, effs) := get_device_clipboard q SC_COPY_KEY_COPY
      (im, q, effs)
    else (im, q, [])
  | .kx =>
    if im.kp && !shift && !rep && down && !paused then
      let (_, q, effs) := get_device_clipboard q SC_COPY_KEY_CUT
      (im, q, effs)
    else (im, q, [])
  | .kv =>
    if im.kp && !rep && down && !paused then
      if shift || im.legacy_paste then
        let (q, effs) := clipboard_paste env q
        (im, q, effs)
      else
        let (_, q, effs) := set_device_clipboard env q true SC_SEQUENCE_INVALID
        (im, q, effs)
    else (im, q, [])
  | .kf =>
    if video && !shift && !rep && down then
      (im, q, [Effect.switchFullscreen])
    else (im, q, [])
  | .kw =>
    if video && !shift && !rep && down then
      (im, q, [Effect.resizeToFit])
    else (im, q, [])
  | .kg =>
    if video && !shift && !rep && down then
      (im, q, [Effect.resizePixelPerfect])
    else (im, q, [])
  | .ki =>
    if video && !shift && !rep && down then
      (im, q, [Effect.switchFpsCounterState])
    else (im, q, [])
  | .kn =>
    if control && !rep && down && !paused then
      if shift then
        let (q, effs) := collapse_panels q
        (im, q, effs)
      else if im.key_repeat == 0 then
        let (q, effs) := expand_notification_panel q
        (im, q, effs)
      else
        let (q, effs) := expand_settings_panel q
        (im, q, effs)
    else (im, q, [])
  | .kr =>
    if control && !shift && !rep && down && !paused then
      let (q, effs) := rotate_device q
      (im, q, effs)
    else (im, q, [])
  | .kk =>
    if control && !shift && !rep && down && !paused && im.kp && im.kp_hid then
      let (q, effs) := open_hard_keyboard_settings q
      (im, q, effs)
    else (im, q, [])
  | .kt =>
    if control && !rep && down && !paused && im.kp then
      if shift then
        (turn_off_touchmap im, q, [])
      else
        (open_touchmap_file im env, q, [])
    else (im, q, [])
  | .other => (im, q, [])

/-- The shortcut switch at lines 505-670, dispatching on the case label of
the keycode.  Every case returns without reaching the key processor. -/
def handleShortcut (im : IMState) (env : Env) (q : List Bool) (e : KeyEvent) :
    IMState × List Bool × List Effect :=
  shortcutSwitch im env q e (shortcutCaseOf e.keycode)

/-- The non-shortcut tail of sc_input_manager_process_key
(lines 672-715): the clipboard autosync path and the delegation to the
key processor. -/
def handleNonShortcutKey (im : IMState) (env : Env) (q : List Bool)
    (e : KeyEvent) : IMState × List Bool × List Effect :=
  if !im.kp || im.paused then (im, q, [])
  else
    let ctrl := (e.mod &&& KMOD_CTRL) ≠ 0
    let shift := (e.mod &&& KMOD_SHIFT) ≠ 0
    let is_ctrl_v := ctrl && !shift && e.keycode == SDLK_v && e.down && !e.rep
    if im.clipboard_autosync && is_ctrl_v then
      if im.legacy_paste then
        let (q, effs) := clipboard_paste env q
        (im, q, effs)
      else
        let sequence := if im.kp_async_paste then im.next_sequence
                        else SC_SEQUENCE_INVALID
        let (ok, q, effs) := set_device_clipboard env q false sequence
        if !ok then (im, q, effs)
        else
          let (im, ack_to_wait) :=
            if im.kp_async_paste then
              ({ im with next_sequence := im.next_sequence + 1 }, sequence)
            else (im, SC_SEQUENCE_INVALID)
          (im, q, effs ++ [Effect.processKey e.keycode e.down e.rep e.mod ack_to_wait])
    else
      (im, q, [Effect.processKey e.keycode e.down e.rep e.mod SC_SEQUENCE_INVALID])

def sc_input_manager_process_key (im : IMState) (env : Env) (q : List Bool)
    (e : KeyEvent) : IMState × List Bool × List Effect :=
  if is_shortcut_mod im e.mod || is_shortcut_key im e.keycode then
    handleShortcut (updateKeyRepeat im e) env q e
  else handleNonShortcutKey (updateKeyRepeat im e) env q e

/-! ## Mouse events (input_manager.c lines 717-768 and 800-955) -/

structure MouseMotionEvent where
  which : Nat
  x : Int
  y : Int
  xrel : Int
  yrel : Int
deriving DecidableEq, Repr

structure MouseButtonEvent where
  which : Nat
  button : Nat
  clicks : Nat
  down : Bool     -- event->type == SDL_MOUSEBUTTONDOWN
  x : Int
  y : Int
deriving DecidableEq, Repr

def sc_input_manager_process_mouse_motion (im : IMState) (env : Env)
    (q : List Bool) (event : MouseMotionEvent) :
    IMState × List Bool × List Effect :=
  if event.which == SDL_TOUCH_MOUSEID then (im, q, [])
  else
    let motionEff := Effect.processMouseMotion event.x event.y
    if im.vfinger_down then
      let mouse := env.winToFrame event.x event.y
      let vfinger := inverse_point mouse im.frame_size
        im.vfinger_invert_x im.vfinger_invert_y
      let (_, q, effs) := simulate_virtual_finger im q TouchAction.move vfinger
      (im, q, motionEff :: effs)
    else (im, q, [motionEff])

def sc_input_manager_get_binding (im : IMState) (sdl_button : Nat) : Nat :=
  if sdl_button == SDL_BUTTON_LEFT then SC_MOUSE_BINDING_CLICK
  else if sdl_button == SDL_BUTTON_RIGHT then im.right_click
  else if sdl_button == SDL_BUTTON_MIDDLE then im.middle_click
  else if sdl_button == SDL_BUTTON_X1 then im.click4
  else if sdl_button == SDL_BUTTON_X2 then im.click5
  else SC_MOUSE_BINDING_DISABLED

/-- Lines 870-954: the double-click-on-border resize, the delegation to
the mouse processor and the virtual-finger engine. -/
def mouseButtonRest (im : IMState) (env : Env) (q : List Bool)
    (event : MouseButtonEvent) : IMState × List Bool × List Effect :=
  let video := im.video
  let mouse_relative_mode := im.mp && im.mp_relative_mode
  let outside :=
    if video && !mouse_relative_mode && event.button == SDL_BUTTON_LEFT
        && event.clicks == 2 then
      let scaled := env.hidpiScale event.x event.y
      scaled.1 < im.rect_x || scaled.1 ≥ im.rect_x + im.rect_w
        || scaled.2 < im.rect_y || scaled.2 ≥ im.rect_y + im.rect_h
    else false
  if outside then
    if event.down then (im, q, [Effect.resizeToFit]) else (im, q, [])
  else if !im.mp || im.paused then (im, q, [])
  else
    let clickEff := Effect.processMouseClick event.button event.down
    if im.mp_relative_mode then (im, q, [clickEff])
    else
      let ctrl_pressed := (env.keymod &&& KMOD_CTRL) ≠ 0
      let shift_pressed := (env.keymod &&& KMOD_SHIFT) ≠ 0
      if event.button == SDL_BUTTON_LEFT &&
          ((event.down && !im.vfinger_down &&
            ((ctrl_pressed && !shift_pressed) || (!ctrl_pressed && shift_pressed)))
           || (!event.down && im.vfinger_down)) then
        let mouse := env.winToFrame event.x event.y
        let im :=
          if event.down then
            { im with vfinger_invert_x := ctrl_pressed || shift_pressed,
                      vfinger_invert_y := ctrl_pressed }
          else im
        let vfinger := inverse_point mouse im.frame_size
          im.vfinger_invert_x im.vfinger_invert_y
        let action := if event.down then TouchAction.down else TouchAction.up
        let (ok, q, effs) := simulate_virtual_finger im q action vfinger
        if !ok then (im, q, clickEff :: effs)
        else ({ im with vfinger_down := event.down }, q, clickEff :: effs)
      else (im, q, [clickEff])

/-- The special-binding switch at lines 836-867; every branch returns
without reaching the rest of the handler. -/
def mouseBindingSwitch (im : IMState) (q : List Bool) (event : MouseButtonEvent)
    (binding : Nat) : IMState × List Bool × List Effect :=
  if binding == SC_MOUSE_BINDING_DISABLED then (im, q, [])
  else if binding == SC_MOUSE_BINDING_BACK then
    if im.kp then
      let (q, effs) := press_back_or_turn_screen_on q event.down
      (im, q, effs)
    else (im, q, [])
  else if binding == SC_MOUSE_BINDING_HOME then
    if im.kp then
      let (q, effs) := send_keycode q AKEYCODE_HOME event.down
      (im, q, effs)
    else (im, q, [])
  else if binding == SC_MOUSE_BINDING_APP_SWITCH then
    if im.kp then
      let (q, effs) := send_keycode q AKEYCODE_APP_SWITCH event.down
      (im, q, effs)
    else (im, q, [])
  else if binding == SC_MOUSE_BINDING_EXPAND_NOTIFICATION_PANEL then
    if event.down then
      if event.clicks < 2 then
        let (q, effs) := expand_notification_panel q
        (im, q, effs)
      else
        let (q, effs) := expand_settings_panel q
        (im, q, effs)
    else (im, q, [])
  else (im, q, [])

def sc_input_manager_process_mouse_button (im : IMState) (env : Env)
    (q : List Bool) (event : MouseButtonEvent) :
    IMState × List Bool × List Effect :=
  if event.which == SDL_TOUCH_MOUSEID then (im, q, [])
  else if im.controller && !im.paused
      && sc_input_manager_get_binding im event.button ≠ SC_MOUSE_BINDING_CLICK then
    mouseBindingSwitch im q event (sc_input_manager_get_binding im event.button)
  else mouseButtonRest im env q event

/-! ## Gamepad event dispatch (input_manager.c lines 1245-1283) -/

def dispatchControllerAxis (im : IMState) (q : List Bool)
    (which : Int) (axis : Nat) (value : Int) :
    IMState × List Bool × List Effect :=
  if im.forward_game_controllers then
    let (_, q, effs) := pushE q (ControlMsg.gcAxis which axis value)
    (im, q, effs)
  else
    match im.game_touchmap with
    | none => (im, q, [])
    | some map =>
      if axis == SDL_CONTROLLER_AXIS_LEFTX || axis == SDL_CONTROLLER_AXIS_LEFTY then
        let (walk, q, effs) := sc_handle_touchmap_walk im map.walk q
          (axis == SDL_CONTROLLER_AXIS_LEFTX) value
        ({ im with game_touchmap := some { map with walk := walk } }, q, effs)
      else if axis == SDL_CONTROLLER_AXIS_RIGHTX || axis == SDL_CONTROLLER_AXIS_RIGHTY then
        let (map, q, effs) := sc_handle_touchmap_skill_cast im map q
          (axis == SDL_CONTROLLER_AXIS_RIGHTX) value
        ({ im with game_touchmap := some map }, q, effs)
      else if axis == SDL_CONTROLLER_AXIS_TRIGGERLEFT
          || axis == SDL_CONTROLLER_AXIS_TRIGGERRIGHT then
        let (btns, q, effs) := sc_handle_touchmap_button im map.buttons q
          (toU8 (SDL_CONTROLLER_BUTTON_MAX + (axis : Int)))
          (toU8 (Int.tdiv (value * 5) SDL_MAX_SINT16))
        ({ im with game_touchmap := some { map with buttons := btns } }, q, effs)
      else (im, q, [])

def dispatchControllerButton (im : IMState) (q : List Bool)
    (which : Int) (button : Nat) (state : Nat) :
    IMState × List Bool × List Effect :=
  if im.forward_game_controllers then
    let (_, q, effs) := pushE q (ControlMsg.gcButton which button state)
    (im, q, effs)
  else
    match im.game_touchmap with
    | none => (im, q, [])
    | some map =>
      let (btns, q, effs) := sc_handle_touchmap_button im map.buttons q button state
      ({ im with game_touchmap := some { map with buttons := btns } }, q, effs)

/-! ## Top-level event dispatcher (input_manager.c lines 1195-1295),
restricted to the event kinds modelled here -/

inductive SCEvent where
  | key (e : KeyEvent)
  | mouseMotion (e : MouseMotionEvent)
  | mouseButton (e : MouseButtonEvent)
  | caxis (which : Int) (axis : Nat) (value : Int)
  | cbutton (which : Int) (button : Nat) (state : Nat)
deriving DecidableEq, Repr

def sc_input_manager_handle_event (im : IMState) (env : Env) (q : List Bool)
    (ev : SCEvent) : IMState × List Bool × List Effect :=
  let control := im.controller
  let paused := im.paused
  match ev with
  | .key e => sc_input_manager_process_key im env q e
  | .mouseMotion e =>
    if !im.mp || paused then (im, q, [])
    else sc_input_manager_process_mouse_motion im env q e
  | .mouseButton e => sc_input_manager_process_mouse_button im env q e
  | .caxis which axis value =>
    if !control then (im, q, [])
    else dispatchControllerAxis im q which axis value
  | .cbutton which button state =>
    if !control then (im, q, [])
    else dispatchControllerButton im q which button state

/-- Process a sequence of events, threading state and queue oracle and
concatenating the effects in order. -/
def runEvents (im : IMState) (env : Env) (q : List Bool) :
    List SCEvent → IMState × List Bool × List Effect
  | [] => (im, q, [])
  | ev :: rest =>
    let (im1, q1, effs1) := sc_input_manager_handle_event im env q ev
    let (im2, q2, effs2) := runEvents im1 env q1 rest
    (im2, q2, effs1 ++ effs2)

/-! ## Counting touch messages per finger id -/

/-- An attempted push of a touch message with the given finger id and
action (whether or not the push succeeded). -/
def isTouchPush (fid : Nat) (a : TouchAction) : Effect → Bool
  | .pushMsg (.injectTouchEvent act _ _ pid) _ => pid == fid && act == a
  | _ => false

/-- A touch message actually delivered to the outbound queue. -/
def isSentTouchPush (fid : Nat) (a : TouchAction) : Effect → Bool
  | .pushMsg (.injectTouchEvent act _ _ pid) delivered =>
    pid == fid && act == a && delivered
  | _ => false

def countTouch (effs : List Effect) (fid : Nat) (a : TouchAction) : Nat :=
  (effs.filter (isTouchPush fid a)).length

def countSentTouch (effs : List Effect) (fid : Nat) (a : TouchAction) : Nat :=
  (effs.filter (isSentTouchPush fid a)).length

/-- All finger ids of a touchmap: the walk control followed by the touch
buttons. -/
def touchmapFids (m : sc_gptm_gamepad_touchmap) : List Nat :=
  m.walk.finger_id :: m.buttons.map (fun b => b.finger_id)

/-- The DOWN count equals the UP count, plus one exactly when the control
is currently down. -/
def balancedFor (effs : List Effect) (fid : Nat) (d : Bool) : Prop :=
  countTouch effs fid TouchAction.down =
    countTouch effs fid TouchAction.up + (bif d then 1 else 0)

/-- No control of the touchmap is currently touched down. -/
def allReleased (m : sc_gptm_gamepad_touchmap) : Prop :=
  m.walk.touch_down = false ∧ ∀ b ∈ m.buttons, b.touch_down = false

/-- Every control holds the DOWN/UP parity of the attempted pushes for its
finger id. -/
def touchmapBalanced (effs : List Effect) (m : sc_gptm_gamepad_touchmap) : Prop :=
  balancedFor effs m.walk.finger_id m.walk.touch_down ∧
    ∀ b ∈ m.buttons, balancedFor effs b.finger_id b.touch_down

/-! ## Classifiers over events and effects used by the theorems -/

def isGamepadEvent : SCEvent → Bool
  | .caxis _ _ _ => true
  | .cbutton _ _ _ => true
  | _ => false

def isProcessKeyEff : Effect → Bool
  | .processKey _ _ _ _ _ => true
  | _ => false

/-- An attempted push of a virtual-finger touch message (either of the two
pointer ids simulate_virtual_finger can use). -/
def isVfingerTouchPush : Effect → Bool
  | .pushMsg (.injectTouchEvent _ _ _ pid) _ =>
    pid == POINTER_ID_VIRTUAL_MOUSE || pid == POINTER_ID_VIRTUAL_FINGER
  | _ => false

/-- Some virtual-finger touch message was actually delivered to the
outbound queue. -/
def vfingerPushDelivered (effs : List Effect) : Bool :=
  effs.any (fun eff =>
    match eff with
    | .pushMsg (.injectTouchEvent _ _ _ pid) delivered =>
      (pid == POINTER_ID_VIRTUAL_MOUSE || pid == POINTER_ID_VIRTUAL_FINGER)
        && delivered
    | _ => false)

/-! ## Completeness of touchmap JSON entries (for the amended finger-id
allocation claim) -/

def walkControlComplete (mappings : JVal) : Bool :=
  match cJSON_GetObjectItem mappings "walk_control" with
  | some walk_control =>
    match cJSON_GetObjectItem walk_control "center",
          cJSON_GetObjectItem walk_control "radius" with
    | some center, some _ =>
      (cJSON_GetObjectItem center "x").isSome
        && (cJSON_GetObjectItem center "y").isSome
    | _, _ => false
  | none => false

def buttonEntryComplete (item : JVal) : Bool :=
  match cJSON_GetObjectItem item "touch", cJSON_GetObjectItem item "button" with
  | some center, some trigger =>
    (cJSON_GetObjectItem center "x").isSome
      && (cJSON_GetObjectItem center "y").isSome
      && (valuestring trigger).isSome
  | _, _ => false

def skillEntryComplete (item : JVal) : Bool :=
  match cJSON_GetObjectItem item "center", cJSON_GetObjectItem item "radius",
        cJSON_GetObjectItem item "button" with
  | some center, some _, some trigger =>
    (cJSON_GetObjectItem center "x").isSome
      && (cJSON_GetObjectItem center "y").isSome
      && (valuestring trigger).isSome
  | _, _, _ => false

/-! ## Concrete states and inputs used in scenarios, counterexamples and
witnesses -/

def demoEnv : Env :=
  { clipboardText := some "hello", dialogFile := none,
    parseFile := fun _ => none,
    winToFrame := fun x y => { x := x, y := y },
    hidpiScale := fun x y => (x, y),
    mouseState := 0, keymod := 0 }

def baseIM : IMState :=
  { controller := true, kp := true, kp_hid := false, kp_async_paste := false,
    mp := true, mp_relative_mode := false, paused := false, video := true,
    frame_size := { width := 1080, height := 2400 },
    rect_x := 0, rect_y := 0, rect_w := 1080, rect_h := 2400,
    right_click := SC_MOUSE_BINDING_DISABLED,
    middle_click := SC_MOUSE_BINDING_DISABLED,
    click4 := SC_MOUSE_BINDING_DISABLED, click5 := SC_MOUSE_BINDING_DISABLED,
    has_secondary_click := false, forward_game_controllers := false,
    legacy_paste := false, clipboard_autosync := false,
    sdl_shortcut_mods := KMOD_LCTRL,
    vfinger_down := false, vfinger_invert_x := false, vfinger_invert_y := false,
    last_keycode := SDLK_UNKNOWN, last_mod := 0, key_repeat := 0,
    next_sequence := 1, game_touchmap := none }

/-- The touchmap file of scenario 1 of the spec: only a walk control with
center (100, 200) and radius 50. -/
def walkDemoJson : JVal :=
  .obj [("mappings", .obj [
    ("walk_control", .obj [
      ("center", .obj [("x", .num 100), ("y", .num 200)]),
      ("radius", .num 50)])])]

/-- What the loader produces for walkDemoJson. -/
def walkDemoMap : sc_gptm_gamepad_touchmap :=
  { walk := { center := { x := 100, y := 200 }, radius := 50,
              current_pos := { x := 0, y := 0 }, touch_down := false,
              finger_id := 100 },
    buttons := [] }

/-- A freshly loaded map with the walk control and one A button. -/
def btnDemoMap : sc_gptm_gamepad_touchmap :=
  { walk := { center := { x := 100, y := 200 }, radius := 50,
              current_pos := { x := 0, y := 0 }, touch_down := false,
              finger_id := 100 },
    buttons := [{ center := { x := 50, y := 50 }, radius := 0,
                  current_pos := { x := 0, y := 0 }, touch_down := false,
                  finger_id := 101, button := 0, is_skill := false }] }

/-- A touchmap file that the loader accepts although it has no
walk_control section: one complete A button at (10, 20). -/
def noWalkJson : JVal :=
  .obj [("mappings", .obj [
    ("button_mappings", .arr [
      .obj [("touch", .obj [("x", .num 10), ("y", .num 20)]),
            ("button", .str "A")]])])]

/-- What the loader produces for noWalkJson: the walk control keeps the
zeroed finger id 0 and the button takes finger id 100. -/
def noWalkMap : sc_gptm_gamepad_touchmap :=
  { walk := zeroWalkControl,
    buttons := [{ center := { x := 10, y := 20 }, radius := 0,
                  current_pos := { x := 0, y := 0 }, touch_down := false,
                  finger_id := 100, button := 0, is_skill := false }] }

/-- A complete touchmap file: walk control, one B button, one RT skill. -/
def fullDemoJson : JVal :=
  .obj [("mappings", .obj [
    ("walk_control", .obj [
      ("center", .obj [("x", .num 100), ("y", .num 200)]),
      ("radius", .num 50)]),
    ("button_mappings", .arr [
      .obj [("touch", .obj [("x", .num 10), ("y", .num 20)]),
            ("button", .str "B")]]),
    ("skill_casting", .arr [
      .obj [("center", .obj [("x", .num 300), ("y", .num 400)]),
            ("radius", .num 80),
            ("button", .str "RT")]])])]

/-- The mappings object of fullDemoJson. -/
def fullDemoMappings : JVal :=
  .obj [
    ("walk_control", .obj [
      ("center", .obj [("x", .num 100), ("y", .num 200)]),
      ("radius", .num 50)]),
    ("button_mappings", .arr [
      .obj [("touch", .obj [("x", .num 10), ("y", .num 20)]),
            ("button", .str "B")]]),
    ("skill_casting", .arr [
      .obj [("center", .obj [("x", .num 300), ("y", .num 400)]),
            ("radius", .num 80),
            ("button", .str "RT")]])]

/-- State for the clipboard autosync scenario: autosync on, async paste
key processor, shortcut modifier ALT so that Ctrl+v is not a shortcut. -/
def ctrlVIM : IMState :=
  { baseIM with clipboard_autosync := true, kp_async_paste := true,
                sdl_shortcut_mods := KMOD_LALT }

def ctrlVEvent : KeyEvent :=
  { down := true, keycode := SDLK_v, mod := KMOD_LCTRL, rep := false }

def nPressEvent : KeyEvent :=
  { down := true, keycode := SDLK_n, mod := KMOD_LCTRL, rep := false }

def shiftNPressEvent : KeyEvent :=
  { down := true, keycode := SDLK_n, mod := KMOD_LCTRL ||| KMOD_LSHIFT,
    rep := false }

def tPressEvent : KeyEvent :=
  { down := true, keycode := SDLK_t, mod := KMOD_LCTRL, rep := false }

def shiftTPressEvent : KeyEvent :=
  { down := true, keycode := SDLK_t, mod := KMOD_LCTRL ||| KMOD_LSHIFT,
    rep := false }

/-! # Theorems -/

/-- C3: button_name_to_value resolves every name of the closed vocabulary
to its expected code, except that "R2" falls through to INVALID because
the line intended to test "R2" tests "L2" a second time; "RT" alone maps
to the trigger-right virtual code MAX_BUTTON + TRIGGERRIGHT.  This
exhibits the failing input "R2" of the code bug recorded in the spec. -/
theorem button_name_to_value_R2_is_invalid :
    button_name_to_value "R2" = SDL_CONTROLLER_BUTTON_INVALID ∧
    SDL_CONTROLLER_BUTTON_INVALID ≠
      SDL_CONTROLLER_BUTTON_MAX + (SDL_CONTROLLER_AXIS_TRIGGERRIGHT : Int) ∧
    button_name_to_value "RT" =
      SDL_CONTROLLER_BUTTON_MAX + (SDL_CONTROLLER_AXIS_TRIGGERRIGHT : Int) ∧
    button_name_to_value "A" = SDL_CONTROLLER_BUTTON_A ∧
    button_name_to_value "B" = SDL_CONTROLLER_BUTTON_B ∧
    button_name_to_value "X" = SDL_CONTROLLER_BUTTON_X ∧
    button_name_to_value "Y" = SDL_CONTROLLER_BUTTON_Y ∧
    button_name_to_value "BACK" = SDL_CONTROLLER_BUTTON_BACK ∧
    button_name_to_value "SELECT" = SDL_CONTROLLER_BUTTON_BACK ∧
    button_name_to_value "GUIDE" = SDL_CONTROLLER_BUTTON_GUIDE ∧
    button_name_to_value "HOME" = SDL_CONTROLLER_BUTTON_GUIDE ∧
    button_name_to_value "START" = SDL_CONTROLLER_BUTTON_START ∧
    button_name_to_value "LTHUMB" = SDL_CONTROLLER_BUTTON_LEFTSTICK ∧
    button_name_to_value "L3" = SDL_CONTROLLER_BUTTON_LEFTSTICK ∧
    button_name_to_value "RTHUMB" = SDL_CONTROLLER_BUTTON_RIGHTSTICK ∧
    button_name_to_value "R3" = SDL_CONTROLLER_BUTTON_RIGHTSTICK ∧
    button_name_to_value "LB" = SDL_CONTROLLER_BUTTON_LEFTSHOULDER ∧
    button_name_to_value "L1" = SDL_CONTROLLER_BUTTON_LEFTSHOULDER ∧
    button_name_to_value "RB" = SDL_CONTROLLER_BUTTON_RIGHTSHOULDER ∧
    button_name_to_value "R1" = SDL_CONTROLLER_BUTTON_RIGHTSHOULDER ∧
    button_name_to_value "UP" = SDL_CONTROLLER_BUTTON_DPAD_UP ∧
    button_name_to_value "DOWN" = SDL_CONTROLLER_BUTTON_DPAD_DOWN ∧
    button_name_to_value "LEFT" = SDL_CONTROLLER_BUTTON_DPAD_LEFT ∧
    button_name_to_value "RIGHT" = SDL_CONTROLLER_BUTTON_DPAD_RIGHT ∧
    button_name_to_value "MISC" = SDL_CONTROLLER_BUTTON_MISC1 ∧
    button_name_to_value "PADDLE1" = SDL_CONTROLLER_BUTTON_PADDLE1 ∧
    button_name_to_value "PADDLE2" = SDL_CONTROLLER_BUTTON_PADDLE2 ∧
    button_name_to_value "PADDLE3" = SDL_CONTROLLER_BUTTON_PADDLE3 ∧
    button_name_to_value "PADDLE4" = SDL_CONTROLLER_BUTTON_PADDLE4 ∧
    button_name_to_value "TOUCHPAD" = SDL_CONTROLLER_BUTTON_TOUCHPAD ∧
    button_name_to_value "LT" =
      SDL_CONTROLLER_BUTTON_MAX + (SDL_CONTROLLER_AXIS_TRIGGERLEFT : Int) ∧
    button_name_to_value "L2" =
      SDL_CONTROLLER_BUTTON_MAX + (SDL_CONTROLLER_AXIS_TRIGGERLEFT : Int) := by
  decide

/-- C4 as stated fails on the code: after loading the walk-only touchmap,
handling LEFTX=20000 and then LEFTY=0 does not emit exactly a DOWN at
(100, 200) followed by a MOVE at (130, 200). -/
theorem walk_scenario_trace_cex :
    (runEvents { baseIM with game_touchmap := some walkDemoMap } demoEnv []
      [SCEvent.caxis 0 0 20000, SCEvent.caxis 0 1 0]).2.2 ≠
    [Effect.pushMsg (ControlMsg.injectTouchEvent TouchAction.down
        baseIM.frame_size { x := 100, y := 200 } 100) true,
     Effect.pushMsg (ControlMsg.injectTouchEvent TouchAction.move
        baseIM.frame_size { x := 130, y := 200 } 100) true] := by
  decide

/-- C4 amended: the loader zero-initialises current_pos, so the LEFTX
event already finds current_pos.y = 0 far from the center; the emitted
trace is DOWN at (100, 200) with finger id 100, MOVE at (130, 0), then
after LEFTY=0 a MOVE at (130, 200), where each per-axis update sets
current_pos.axis = center.axis + value * radius / 32767 with truncating
division. -/
theorem walk_scenario_trace :
    parse_touchmap_config (some walkDemoJson) = some walkDemoMap ∧
    (runEvents { baseIM with game_touchmap := some walkDemoMap } demoEnv []
      [SCEvent.caxis 0 0 20000, SCEvent.caxis 0 1 0]).2.2 =
    [Effect.pushMsg (ControlMsg.injectTouchEvent TouchAction.down
        baseIM.frame_size { x := 100, y := 200 } 100) true,
     Effect.pushMsg (ControlMsg.injectTouchEvent TouchAction.move
        baseIM.frame_size { x := 130, y := 0 } 100) true,
     Effect.pushMsg (ControlMsg.injectTouchEvent TouchAction.move
        baseIM.frame_size { x := 130, y := 200 } 100) true] := by
  decide

/-- C8: a non-shortcut Ctrl+v DOWN with clipboard_autosync, async paste
and next_sequence 1 pushes SET_CLIPBOARD with sequence 1 and paste false,
then hands the key to the key processor with ack_to_wait 1, and
next_sequence becomes 2; when the push fails nothing is handed to the key
processor and next_sequence stays 1. -/
theorem ctrl_v_autosync_scenario :
    ((sc_input_manager_process_key ctrlVIM demoEnv [true] ctrlVEvent).2.2 =
       [Effect.pushMsg (ControlMsg.setClipboard 1 "hello" false) true,
        Effect.processKey SDLK_v true false KMOD_LCTRL 1] ∧
     (sc_input_manager_process_key ctrlVIM demoEnv [true] ctrlVEvent).1.next_sequence = 2) ∧
    ((sc_input_manager_process_key ctrlVIM demoEnv [false] ctrlVEvent).2.2 =
       [Effect.pushMsg (ControlMsg.setClipboard 1 "hello" false) false] ∧
     (sc_input_manager_process_key ctrlVIM demoEnv [false] ctrlVEvent).1.next_sequence = 1) := by
  decide

set_option maxHeartbeats 3200000 in
/-- Helper: no case of the shortcut switch produces a processKey effect. -/
theorem shortcutSwitch_no_processKey (im : IMState) (env : Env) (q : List Bool)
    (e : KeyEvent) (c : ShortcutCase) :
    ((shortcutSwitch im env q e c).2.2).all (fun eff => !isProcessKeyEff eff) = true := by
  cases c <;>
    simp only [shortcutSwitch, send_keycode, set_screen_power_mode,
      get_device_clipboard, clipboard_paste, set_device_clipboard, collapse_panels,
      expand_notification_panel, expand_settings_panel, rotate_device,
      open_hard_keyboard_settings, pushE] <;>
    (repeat' split) <;>
    simp [isProcessKeyEff]

/-- C6: whenever a key event is classified as a shortcut, the key
processor is never handed the event, whatever the keycode and whether or
not the guard of the matched case fires. -/
theorem shortcut_swallows_key_event (im : IMState) (env : Env) (q : List Bool)
    (e : KeyEvent)
    (h : (is_shortcut_mod im e.mod || is_shortcut_key im e.keycode) = true) :
    ((sc_input_manager_process_key im env q e).2.2).all
      (fun eff => !isProcessKeyEff eff) = true := by
  unfold sc_input_manager_process_key handleShortcut
  simp only [h, if_true]
  exact shortcutSwitch_no_processKey _ _ _ _ _

/-- Witness for C6: a concrete LCTRL+n press is swallowed. -/
theorem shortcut_swallows_key_event_witness :
    ((sc_input_manager_process_key baseIM demoEnv [] nPressEvent).2.2).all
      (fun eff => !isProcessKeyEff eff) = true :=
  shortcut_swallows_key_event baseIM demoEnv [] nPressEvent (by decide)

set_option maxHeartbeats 3200000 in
/-- Helper: the shortcut switch never touches the repeat-tracking state. -/
theorem shortcutSwitch_preserves_keystate (im : IMState) (env : Env)
    (q : List Bool) (e : KeyEvent) (c : ShortcutCase) :
    (shortcutSwitch im env q e c).1.key_repeat = im.key_repeat ∧
    (shortcutSwitch im env q e c).1.last_keycode = im.last_keycode ∧
    (shortcutSwitch im env q e c).1.last_mod = im.last_mod := by
  cases c <;>
    simp only [shortcutSwitch, send_keycode, set_screen_power_mode,
      get_device_clipboard, clipboard_paste, set_device_clipboard, collapse_panels,
      expand_notification_panel, expand_settings_panel, rotate_device,
      open_hard_keyboard_settings, pushE, turn_off_touchmap, open_touchmap_file] <;>
    (repeat' split) <;>
    simp

/-- Helper: the non-shortcut tail never touches the repeat-tracking
state. -/
theorem handleNonShortcutKey_preserves_keystate (im : IMState) (env : Env)
    (q : List Bool) (e : KeyEvent) :
    (handleNonShortcutKey im env q e).1.key_repeat = im.key_repeat ∧
    (handleNonShortcutKey im env q e).1.last_keycode = im.last_keycode ∧
    (handleNonShortcutKey im env q e).1.last_mod = im.last_mod := by
  unfold handleNonShortcutKey clipboard_paste set_device_clipboard pushE
  cases henv : env.clipboardText <;> simp only [henv] <;> (repeat' split) <;> simp

/-- Helper: what updateKeyRepeat does on a non-repeating key DOWN. -/
theorem updateKeyRepeat_spec (im : IMState) (e : KeyEvent)
    (hd : e.down = true) (hr : e.rep = false) :
    (updateKeyRepeat im e).key_repeat =
      (if e.keycode = im.last_keycode ∧ e.mod = im.last_mod
       then im.key_repeat + 1 else 0) ∧
    (updateKeyRepeat im e).last_keycode = e.keycode ∧
    (updateKeyRepeat im e).last_mod = e.mod := by
  unfold updateKeyRepeat
  simp [hd, hr]
  split <;> simp_all

/-- C7: on every non-repeating key DOWN the repeat counter is incremented
exactly when (keycode, mod) repeats the previous non-repeat DOWN and is
otherwise reset with the last pair updated; consequently, with shortcut
modifier LCTRL, a first LCTRL+n press expands the notification panel, an
immediate second press expands the settings panel, and Shift+n while
LCTRL is held collapses the panels. -/
theorem key_repeat_counting_and_panels (im : IMState) (env : Env)
    (q : List Bool) (e : KeyEvent) (hd : e.down = true) (hr : e.rep = false) :
    ((sc_input_manager_process_key im env q e).1.key_repeat =
      (if e.keycode = im.last_keycode ∧ e.mod = im.last_mod
       then im.key_repeat + 1 else 0)) ∧
    (sc_input_manager_process_key im env q e).1.last_keycode = e.keycode ∧
    (sc_input_manager_process_key im env q e).1.last_mod = e.mod ∧
    (runEvents baseIM demoEnv []
      [SCEvent.key nPressEvent, SCEvent.key nPressEvent,
       SCEvent.key shiftNPressEvent]).2.2 =
      [Effect.pushMsg ControlMsg.expandNotificationPanel true,
       Effect.pushMsg ControlMsg.expandSettingsPanel true,
       Effect.pushMsg ControlMsg.collapsePanels true] := by
  have hu := updateKeyRepeat_spec im e hd hr
  have hstate : (sc_input_manager_process_key im env q e).1.key_repeat =
        (updateKeyRepeat im e).key_repeat ∧
      (sc_input_manager_process_key im env q e).1.last_keycode =
        (updateKeyRepeat im e).last_keycode ∧
      (sc_input_manager_process_key im env q e).1.last_mod =
        (updateKeyRepeat im e).last_mod := by
    unfold sc_input_manager_process_key handleShortcut
    by_cases hs : (is_shortcut_mod im e.mod || is_shortcut_key im e.keycode) = true
    · rw [if_pos hs]
      exact shortcutSwitch_preserves_keystate (updateKeyRepeat im e) env q e _
    · rw [if_neg hs]
      exact handleNonShortcutKey_preserves_keystate (updateKeyRepeat im e) env q e
  exact ⟨hstate.1.trans hu.1, hstate.2.1.trans hu.2.1, hstate.2.2.trans hu.2.2,
    by decide⟩

/-- Witness for C7: the first LCTRL+n press on the initial state resets
the counter and records the pair. -/
theorem key_repeat_counting_and_panels_witness :
    (sc_input_manager_process_key baseIM demoEnv [] nPressEvent).1.key_repeat = 0 ∧
    (sc_input_manager_process_key baseIM demoEnv [] nPressEvent).1.last_keycode = SDLK_n := by
  have h := key_repeat_counting_and_panels baseIM demoEnv [] nPressEvent
    (by decide) (by decide)
  refine ⟨?_, h.2.1⟩
  rw [h.1]
  decide

/-- Helper: the repeat tracking does not touch the fields read by the t
case. -/
theorem updateKeyRepeat_preserves (im : IMState) (e : KeyEvent) :
    (updateKeyRepeat im e).controller = im.controller ∧
    (updateKeyRepeat im e).kp = im.kp ∧
    (updateKeyRepeat im e).paused = im.paused ∧
    (updateKeyRepeat im e).game_touchmap = im.game_touchmap ∧
    (updateKeyRepeat im e).forward_game_controllers = im.forward_game_controllers := by
  unfold updateKeyRepeat
  (repeat' split) <;> simp

/-- Helper: a t DOWN with a shortcut modifier lands in the kt case of the
switch. -/
theorem process_key_t_case (im : IMState) (env : Env) (q : List Bool) (mod : Nat)
    (hsm : is_shortcut_mod im mod = true) :
    sc_input_manager_process_key im env q
      { down := true, keycode := SDLK_t, mod := mod, rep := false } =
    shortcutSwitch
      (updateKeyRepeat im { down := true, keycode := SDLK_t, mod := mod, rep := false })
      env q { down := true, keycode := SDLK_t, mod := mod, rep := false }
      ShortcutCase.kt := by
  unfold sc_input_manager_process_key handleShortcut
  rw [if_pos (by simp [hsm])]
  have hcase : shortcutCaseOf
      ({ down := true, keycode := SDLK_t, mod := mod, rep := false } : KeyEvent).keycode =
      ShortcutCase.kt := rfl
  rw [hcase]

/-- Helper: the kt case without shift opens the file dialog and loads. -/
theorem shortcutSwitch_kt_noshift (im : IMState) (env : Env) (q : List Bool)
    (e : KeyEvent) (hc : im.controller = true) (hk : im.kp = true)
    (hp : im.paused = false) (hd : e.down = true) (hr : e.rep = false)
    (hs : e.mod &&& KMOD_SHIFT = 0) :
    shortcutSwitch im env q e ShortcutCase.kt =
      (open_touchmap_file im env, q, []) := by
  simp [shortcutSwitch, hc, hk, hp, hd, hr, hs]

/-- Helper: the kt case with shift turns the touchmap off. -/
theorem shortcutSwitch_kt_shift (im : IMState) (env : Env) (q : List Bool)
    (e : KeyEvent) (hc : im.controller = true) (hk : im.kp = true)
    (hp : im.paused = false) (hd : e.down = true) (hr : e.rep = false)
    (hs : e.mod &&& KMOD_SHIFT ≠ 0) :
    shortcutSwitch im env q e ShortcutCase.kt =
      (turn_off_touchmap im, q, []) := by
  simp [shortcutSwitch, hc, hk, hp, hd, hr, hs]

/-- C2 as stated fails on the code: attempting to load through the t
shortcut with a prior touchmap loaded, a file selected and the parse
failing does not leave the previous touchmap in place (the manager frees
it before parsing). -/
theorem failed_load_clears_previous_touchmap_cex :
    (sc_input_manager_process_key { baseIM with game_touchmap := some walkDemoMap }
      { demoEnv with dialogFile := some "map.json" } [] tPressEvent).1.game_touchmap ≠
    ({ baseIM with game_touchmap := some walkDemoMap } : IMState).game_touchmap := by
  decide

/-- C2 amended: when a load through the t shortcut fails with a file
selected, the manager is left with no touchmap at all (the previous map
was already freed before parsing); the prior map survives only when the
dialog is cancelled. -/
theorem failed_load_leaves_no_touchmap (im : IMState) (env : Env) (q : List Bool)
    (mod : Nat) (hc : im.controller = true) (hk : im.kp = true)
    (hp : im.paused = false) (hsm : is_shortcut_mod im mod = true)
    (hshift : mod &&& KMOD_SHIFT = 0) :
    (∀ f, env.dialogFile = some f → env.parseFile f = none →
      (sc_input_manager_process_key im env q
        { down := true, keycode := SDLK_t, mod := mod, rep := false }).1.game_touchmap
        = none) ∧
    (env.dialogFile = none →
      (sc_input_manager_process_key im env q
        { down := true, keycode := SDLK_t, mod := mod, rep := false }).1.game_touchmap
        = im.game_touchmap) := by
  have hpres := updateKeyRepeat_preserves im
    { down := true, keycode := SDLK_t, mod := mod, rep := false }
  rw [process_key_t_case im env q mod hsm,
    shortcutSwitch_kt_noshift _ env q _
      (hpres.1.trans hc) (hpres.2.1.trans hk) (hpres.2.2.1.trans hp) rfl rfl hshift]
  constructor
  · intro f hdia hparse
    simp [open_touchmap_file, hdia, hparse]
  · intro hdia
    simp [open_touchmap_file, hdia, hpres.2.2.2.1]

/-- Witness for C2: the amended claim at a concrete failing load. -/
theorem failed_load_leaves_no_touchmap_witness :
    (sc_input_manager_process_key { baseIM with game_touchmap := some walkDemoMap }
      { demoEnv with dialogFile := some "map.json" } [] tPressEvent).1.game_touchmap
      = none :=
  (failed_load_leaves_no_touchmap { baseIM with game_touchmap := some walkDemoMap }
    { demoEnv with dialogFile := some "map.json" } [] KMOD_LCTRL
    (by decide) (by decide) (by decide) (by decide) (by decide)).1
    "map.json" rfl rfl

/-- C10: a successful load through the t shortcut installs the parsed map
and clears forward_game_controllers, so the touchmap engine consumes
gamepad events; Shift+t frees the map, clears it and restores raw
forwarding. -/
theorem touchmap_load_toggles_forwarding (im : IMState) (env : Env) (q : List Bool)
    (mod mod2 : Nat) (f : String) (m : sc_gptm_gamepad_touchmap)
    (hc : im.controller = true) (hk : im.kp = true) (hp : im.paused = false)
    (hsm : is_shortcut_mod im mod = true) (hshift : mod &&& KMOD_SHIFT = 0)
    (hsm2 : is_shortcut_mod im mod2 = true) (hshift2 : mod2 &&& KMOD_SHIFT ≠ 0)
    (hdia : env.dialogFile = some f) (hparse : env.parseFile f = some m) :
    ((sc_input_manager_process_key im env q
        { down := true, keycode := SDLK_t, mod := mod, rep := false }).1.game_touchmap
        = some m ∧
     (sc_input_manager_process_key im env q
        { down := true, keycode := SDLK_t, mod := mod, rep := false
        }).1.forward_game_controllers = false) ∧
    ((sc_input_manager_process_key im env q
        { down := true, keycode := SDLK_t, mod := mod2, rep := false }).1.game_touchmap
        = none ∧
     (sc_input_manager_process_key im env q
        { down := true, keycode := SDLK_t, mod := mod2, rep := false
        }).1.forward_game_controllers = true) := by
  have hpres := updateKeyRepeat_preserves im
    { down := true, keycode := SDLK_t, mod := mod, rep := false }
  have hpres2 := updateKeyRepeat_preserves im
    { down := true, keycode := SDLK_t, mod := mod2, rep := false }
  constructor
  · rw [process_key_t_case im env q mod hsm,
      shortcutSwitch_kt_noshift _ env q _
        (hpres.1.trans hc) (hpres.2.1.trans hk) (hpres.2.2.1.trans hp) rfl rfl hshift]
    constructor <;> simp [open_touchmap_file, hdia, hparse]
  · rw [process_key_t_case im env q mod2 hsm2,
      shortcutSwitch_kt_shift _ env q _
        (hpres2.1.trans hc) (hpres2.2.1.trans hk) (hpres2.2.2.1.trans hp) rfl rfl hshift2]
    constructor <;> simp [turn_off_touchmap]

/-- Witness for C10: a concrete successful load followed by Shift+t. -/
theorem touchmap_load_toggles_forwarding_witness :
    ((sc_input_manager_process_key baseIM
        { demoEnv with dialogFile := some "map.json",
                       parseFile := fun _ => some walkDemoMap } []
        tPressEvent).1.game_touchmap = some walkDemoMap ∧
     (sc_input_manager_process_key baseIM
        { demoEnv with dialogFile := some "map.json",
                       parseFile := fun _ => some walkDemoMap } []
        tPressEvent).1.forward_game_controllers = false) ∧
    ((sc_input_manager_process_key baseIM
        { demoEnv with dialogFile := some "map.json",
                       parseFile := fun _ => some walkDemoMap } []
        shiftTPressEvent).1.game_touchmap = none ∧
     (sc_input_manager_process_key baseIM
        { demoEnv with dialogFile := some "map.json",
                       parseFile := fun _ => some walkDemoMap } []
        shiftTPressEvent).1.forward_game_controllers = true) :=
  touchmap_load_toggles_forwarding baseIM
    { demoEnv with dialogFile := some "map.json",
                   parseFile := fun _ => some walkDemoMap } []
    KMOD_LCTRL (KMOD_LCTRL ||| KMOD_LSHIFT) "map.json" walkDemoMap
    (by decide) (by decide) (by decide) (by decide) (by decide) (by decide)
    (by decide) rfl rfl

/-- Helper: the special-binding switch never changes the manager state. -/
theorem mouseBindingSwitch_fst (im : IMState) (q : List Bool)
    (event : MouseButtonEvent) (binding : Nat) :
    (mouseBindingSwitch im q event binding).1 = im := by
  unfold mouseBindingSwitch press_back_or_turn_screen_on send_keycode
    expand_notification_panel expand_settings_panel pushE
  split_ifs <;> rfl

set_option maxHeartbeats 3200000 in
/-- Helper: after the binding switch, either vfinger_down is unchanged or
a virtual-finger push was delivered. -/
theorem mouseButtonRest_vfinger (im : IMState) (env : Env) (q : List Bool)
    (e : MouseButtonEvent) :
    (mouseButtonRest im env q e).1.vfinger_down = im.vfinger_down ∨
    vfingerPushDelivered (mouseButtonRest im env q e).2.2 = true := by
  unfold mouseButtonRest simulate_virtual_finger simulate_virtual_touch pushE
  aesop

set_option maxHeartbeats 1600000 in
/-- Helper: across the whole mouse-button handler, vfinger_down changes
only when a virtual-finger push was delivered. -/
theorem process_mouse_button_vfinger (im : IMState) (env : Env) (q : List Bool)
    (e : MouseButtonEvent) :
    (sc_input_manager_process_mouse_button im env q e).1.vfinger_down = im.vfinger_down ∨
    vfingerPushDelivered (sc_input_manager_process_mouse_button im env q e).2.2 = true := by
  unfold sc_input_manager_process_mouse_button
  split_ifs
  · left; rfl
  · left; rw [mouseBindingSwitch_fst]
  · exact mouseButtonRest_vfinger im env q e

/-- C9: if the virtual-finger DOWN or UP push fails, vfinger_down keeps
its previous value (a failed DOWN leaves the engine inactive, a failed UP
leaves it active); the flag transitions only when the corresponding push
is delivered, and while the engine is inactive, mouse motion synthesizes
no virtual-finger message. -/
theorem vfinger_down_transitions_only_on_push_success (im : IMState) (env : Env)
    (q : List Bool) (e : MouseButtonEvent) :
    ((sc_input_manager_process_mouse_button im env q e).1.vfinger_down ≠ im.vfinger_down →
      vfingerPushDelivered (sc_input_manager_process_mouse_button im env q e).2.2 = true) ∧
    (∀ e2 : MouseMotionEvent, im.vfinger_down = false →
      ((sc_input_manager_process_mouse_motion im env q e2).2.2).all
        (fun eff => !isVfingerTouchPush eff) = true) := by
  constructor
  · intro hne
    rcases process_mouse_button_vfinger im env q e with h | h
    · exact absurd h hne
    · exact h
  · intro e2 h
    unfold sc_input_manager_process_mouse_motion
    split
    · simp
    · simp [h, isVfingerTouchPush]

/-! Helper lemmas for the touchmap DOWN/UP parity invariant. -/

theorem touchAction_beq (a b : TouchAction) : (a == b) = decide (a = b) := rfl

theorem countTouch_append (l1 l2 : List Effect) (fid : Nat) (a : TouchAction) :
    countTouch (l1 ++ l2) fid a = countTouch l1 fid a + countTouch l2 fid a := by
  simp [countTouch, List.filter_append]

theorem countTouch_single_touch (a' : TouchAction) (fs : sc_size) (pt : sc_point)
    (fid' : Nat) (ok : Bool) (fid : Nat) (a : TouchAction) :
    countTouch [Effect.pushMsg (ControlMsg.injectTouchEvent a' fs pt fid') ok] fid a
      = if fid' = fid ∧ a' = a then 1 else 0 := by
  by_cases h1 : fid' = fid
  · subst h1
    by_cases h2 : a' = a <;>
      simp [countTouch, isTouchPush, List.filter, h2, touchAction_beq]
  · have hb := beq_eq_false_iff_ne.mpr h1
    simp [countTouch, isTouchPush, List.filter, h1, hb]

theorem countTouch_single_zero (a' : TouchAction) (fs : sc_size) (pt : sc_point)
    (fid' : Nat) (ok : Bool) (fid : Nat) (a : TouchAction) (h : fid' ≠ fid) :
    countTouch [Effect.pushMsg (ControlMsg.injectTouchEvent a' fs pt fid') ok]
      fid a = 0 := by
  rw [countTouch_single_touch, if_neg]
  rintro ⟨hh, -⟩
  exact h hh

theorem map_set_eq {α β : Type} (l : List α) (i : Nat) (x : α) (f : α → β)
    (b : α) (hget : l[i]? = some b) (hf : f x = f b) :
    (l.set i x).map f = l.map f := by
  apply List.ext_getElem?
  intro n
  rw [List.getElem?_map, List.getElem?_map, List.getElem?_set]
  by_cases h : i = n
  · subst h
    obtain ⟨hlt, hEq⟩ := List.getElem?_eq_some.mp hget
    simp [hlt, List.getElem?_eq_getElem hlt, hEq, hf]
  · simp [h]

theorem balancedFor_append_step (effs d : List Effect) (fid : Nat)
    (dOld dNew : Bool)
    (h : countTouch d fid TouchAction.down + (bif dOld then 1 else 0) =
         countTouch d fid TouchAction.up + (bif dNew then 1 else 0))
    (hb : balancedFor effs fid dOld) : balancedFor (effs ++ d) fid dNew := by
  unfold balancedFor at *
  rw [countTouch_append, countTouch_append]
  omega

theorem balancedFor_append_zero (effs d : List Effect) (fid : Nat) (dflag : Bool)
    (h1 : countTouch d fid TouchAction.down = 0)
    (h2 : countTouch d fid TouchAction.up = 0)
    (hb : balancedFor effs fid dflag) : balancedFor (effs ++ d) fid dflag :=
  balancedFor_append_step effs d fid dflag dflag (by omega) hb

/-- Helper: the walk handler keeps the finger id, emits only messages for
its own finger id, and its DOWN/UP delta matches the touch_down change. -/
theorem walk_spec (im : IMState) (w : sc_gptm_walk_control) (q : List Bool)
    (ix : Bool) (v : Int) :
    (sc_handle_touchmap_walk im w q ix v).1.finger_id = w.finger_id ∧
    (∀ fid a, fid ≠ w.finger_id →
       countTouch (sc_handle_touchmap_walk im w q ix v).2.2 fid a = 0) ∧
    (countTouch (sc_handle_touchmap_walk im w q ix v).2.2 w.finger_id TouchAction.down
       + (bif w.touch_down then 1 else 0) =
     countTouch (sc_handle_touchmap_walk im w q ix v).2.2 w.finger_id TouchAction.up
       + (bif (sc_handle_touchmap_walk im w q ix v).1.touch_down then 1 else 0)) := by
  refine ⟨?_, ?_, ?_⟩
  · simp only [sc_handle_touchmap_walk, simulate_virtual_touch, pushE]
    split_ifs <;> rfl
  · intro fid a hne
    have hb := beq_eq_false_iff_ne.mpr (Ne.symm hne)
    simp only [sc_handle_touchmap_walk, simulate_virtual_touch, pushE]
    split_ifs <;>
      simp [countTouch, countTouch_append, isTouchPush, List.filter, hb]
  · simp only [sc_handle_touchmap_walk, simulate_virtual_touch, pushE]
    split_ifs <;>
      simp_all [countTouch, countTouch_append, isTouchPush, List.filter,
        touchAction_beq]

/-- Helper: aiming a skill only moves the pointer: ids and touch state are
untouched and only MOVE messages are emitted. -/
theorem skill_dir_spec (im : IMState) (btn : sc_gptm_touch_button)
    (q : List Bool) (ix : Bool) (v : Int) :
    (sc_handle_skill_button_direction im btn q ix v).1.finger_id = btn.finger_id ∧
    (sc_handle_skill_button_direction im btn q ix v).1.touch_down = btn.touch_down ∧
    ∀ fid, countTouch (sc_handle_skill_button_direction im btn q ix v).2.2 fid
        TouchAction.down = 0 ∧
      countTouch (sc_handle_skill_button_direction im btn q ix v).2.2 fid
        TouchAction.up = 0 := by
  refine ⟨?_, ?_, fun fid => ⟨?_, ?_⟩⟩ <;>
  · simp only [sc_handle_skill_button_direction, simulate_virtual_touch, pushE]
    split_ifs <;> simp [countTouch, isTouchPush, List.filter, touchAction_beq]

/-- Helper: the skill-cast loop preserves ids and touch state of every
button and emits no DOWN or UP message. -/
theorem skillCastLoop_spec (im : IMState) (ix : Bool) (v : Int) :
    ∀ (btns : List sc_gptm_touch_button) (q : List Bool),
    ((skillCastLoop im btns q ix v).1.map (fun b => b.finger_id) =
      btns.map (fun b => b.finger_id)) ∧
    ((skillCastLoop im btns q ix v).1.map (fun b => b.touch_down) =
      btns.map (fun b => b.touch_down)) ∧
    (∀ fid, countTouch (skillCastLoop im btns q ix v).2.2 fid TouchAction.down = 0 ∧
            countTouch (skillCastLoop im btns q ix v).2.2 fid TouchAction.up = 0) := by
  intro btns
  induction btns with
  | nil => intro q; simp [skillCastLoop, countTouch]
  | cons btn rest ih =>
    intro q
    unfold skillCastLoop
    split_ifs with hs
    · rcases hdir : sc_handle_skill_button_direction im btn q ix v with ⟨btn', q1, effs1⟩
      have hd := skill_dir_spec im btn q ix v
      rw [hdir] at hd
      rcases hrec : skillCastLoop im rest q1 ix v with ⟨rest', q2, effs2⟩
      have hr := ih q1
      rw [hrec] at hr
      simp only [hdir, hrec]
      refine ⟨?_, ?_, fun fid => ⟨?_, ?_⟩⟩ <;>
        simp_all [countTouch_append]
    · rcases hrec : skillCastLoop im rest q ix v with ⟨rest', q2, effs2⟩
      have hr := ih q
      rw [hrec] at hr
      simp only [hrec]
      refine ⟨?_, ?_, fun fid => ⟨?_, ?_⟩⟩ <;> simp_all

/-- Helper: an index found by the binary search is within bounds. -/
theorem bsearch_lt_length (btns : List sc_gptm_touch_button) (button : Nat) :
    ∀ (fuel lo hi i : Nat),
    bsearchButtonsIdx btns button fuel lo hi = some i → i < btns.length := by
  intro fuel
  induction fuel with
  | zero => intro lo hi i h; cases h
  | succ n ih =>
    intro lo hi i h
    unfold bsearchButtonsIdx at h
    split_ifs at h with hlt
    cases hm : btns[(lo + hi) / 2]? with
    | none => simp only [hm] at h; cases h
    | some b =>
      simp only [hm] at h
      split_ifs at h with h1 h2
      · exact ih lo ((lo + hi) / 2) i h
      · exact ih ((lo + hi) / 2 + 1) hi i h
      · cases h
        by_contra hge
        rw [List.getElem?_eq_none (Nat.le_of_not_lt hge)] at hm
        cases hm

/-- Helper: distinct positions of a finger-id-nodup list carry distinct
finger ids. -/
theorem fid_ne_of_nodup (btns : List sc_gptm_touch_button)
    (hnd : (btns.map (fun b => b.finger_id)).Nodup) (i j : Nat)
    (hi : i < btns.length) (hj : j < btns.length) (hij : i ≠ j) :
    btns[i].finger_id ≠ btns[j].finger_id := by
  intro hEq
  apply hij
  have hinj := List.nodup_iff_injective_get.mp hnd
  have hmapi : (btns.map (fun x => x.finger_id)).get ⟨i, by simpa using hi⟩ =
      btns[i].finger_id := by simp [List.getElem_map]
  have hmapj : (btns.map (fun x => x.finger_id)).get ⟨j, by simpa using hj⟩ =
      btns[j].finger_id := by simp [List.getElem_map]
  have := @hinj ⟨i, by simpa using hi⟩ ⟨j, by simpa using hj⟩
    (by rw [hmapi, hmapj, hEq])
  simpa using congrArg Fin.val this

/-- Helper: toggling one button together with the matching DOWN or UP
message preserves every balance, provided finger ids are distinct. -/
theorem set_toggle_balance (btns : List sc_gptm_touch_button) (i : Nat)
    (b : sc_gptm_touch_button) (hget : btns[i]? = some b) (v : Bool)
    (act : TouchAction) (fs : sc_size) (pt : sc_point) (ok : Bool)
    (hnd : (btns.map (fun x => x.finger_id)).Nodup)
    (hstep : (if act = TouchAction.down then 1 else 0) + (bif b.touch_down then 1 else 0) =
             (if act = TouchAction.up then 1 else 0) + (bif v then 1 else 0))
    (effs : List Effect)
    (hbal : ∀ x ∈ btns, balancedFor effs x.finger_id x.touch_down) :
    ∀ x ∈ btns.set i { b with touch_down := v },
      balancedFor
        (effs ++ [Effect.pushMsg
          (ControlMsg.injectTouchEvent act fs pt b.finger_id) ok])
        x.finger_id x.touch_down := by
  intro x hx
  obtain ⟨hi, hieq⟩ := List.getElem?_eq_some.mp hget
  obtain ⟨j, hj, rfl⟩ := List.mem_iff_getElem.mp hx
  have hjlen : j < btns.length := by simpa using hj
  rw [List.getElem_set]
  by_cases hij : i = j
  · rw [if_pos hij]
    refine balancedFor_append_step effs _ b.finger_id b.touch_down v ?_
      (hbal b (hieq ▸ List.getElem_mem hi))
    rw [countTouch_single_touch, countTouch_single_touch]
    simpa using hstep
  · rw [if_neg hij]
    refine balancedFor_append_zero effs _ _ _ ?_ ?_
      (hbal btns[j] (List.getElem_mem hjlen))
    · refine countTouch_single_zero _ _ _ _ _ _ _ ?_
      have hne := fid_ne_of_nodup btns hnd i j hi hjlen hij
      rw [hieq] at hne
      exact hne
    · refine countTouch_single_zero _ _ _ _ _ _ _ ?_
      have hne := fid_ne_of_nodup btns hnd i j hi hjlen hij
      rw [hieq] at hne
      exact hne

/-- Helper: the button handler keeps the finger ids, emits only messages
for the toggled finger id, and preserves every DOWN/UP balance when the
finger ids are distinct. -/
theorem button_spec (im : IMState) (btns : List sc_gptm_touch_button)
    (q : List Bool) (button state : Nat) :
    ((sc_handle_touchmap_button im btns q button state).1.map (fun b => b.finger_id)
      = btns.map (fun b => b.finger_id)) ∧
    (∀ fid a, fid ∉ btns.map (fun b => b.finger_id) →
      countTouch (sc_handle_touchmap_button im btns q button state).2.2 fid a = 0) ∧
    ((btns.map (fun b => b.finger_id)).Nodup →
      ∀ effs, (∀ b ∈ btns, balancedFor effs b.finger_id b.touch_down) →
      ∀ b ∈ (sc_handle_touchmap_button im btns q button state).1,
        balancedFor (effs ++ (sc_handle_touchmap_button im btns q button state).2.2)
          b.finger_id b.touch_down) := by
  cases hbs : bsearchButtonsIdx btns button (btns.length + 1) 0 btns.length with
  | none =>
    unfold sc_handle_touchmap_button
    simp only [hbs]
    refine ⟨by simp, fun fid a hnot => rfl, fun hnd effs hbal b hb => ?_⟩
    simpa using hbal b hb
  | some i =>
    cases hget : btns[i]? with
    | none =>
      unfold sc_handle_touchmap_button
      simp only [hbs, hget]
      refine ⟨by simp, fun fid a hnot => rfl, fun hnd effs hbal b hb => ?_⟩
      simpa using hbal b hb
    | some b =>
      have hfidmem : b.finger_id ∈ btns.map (fun x => x.finger_id) := by
        obtain ⟨hi, hieq⟩ := List.getElem?_eq_some.mp hget
        exact List.mem_map_of_mem _ (hieq ▸ List.getElem_mem hi)
      unfold sc_handle_touchmap_button simulate_virtual_touch pushE
      simp only [hbs, hget]
      split_ifs with h1 h2 h3
      · -- state nonzero, already down: nothing happens
        refine ⟨rfl, fun fid a hnot => rfl, fun hnd effs hbal b' hb' => ?_⟩
        simpa using hbal b' hb'
      · -- state nonzero, not down: set down and push DOWN
        have hdown : b.touch_down = false := by simpa using h2
        refine ⟨map_set_eq btns i _ _ b hget rfl, ?_, ?_⟩
        · intro fid a hnot
          exact countTouch_single_zero _ _ _ _ _ _ _
            (fun hEq => hnot (hEq ▸ hfidmem))
        · intro hnd effs hbal
          exact set_toggle_balance btns i b hget true TouchAction.down _ _ _
            hnd (by simp [hdown]) effs hbal
      · -- state zero, down: clear down and push UP
        refine ⟨map_set_eq btns i _ _ b hget rfl, ?_, ?_⟩
        · intro fid a hnot
          exact countTouch_single_zero _ _ _ _ _ _ _
            (fun hEq => hnot (hEq ▸ hfidmem))
        · intro hnd effs hbal
          exact set_toggle_balance btns i b hget false TouchAction.up _ _ _
            hnd (by simp [h3]) effs hbal
      · -- state zero, not down: nothing happens
        refine ⟨rfl, fun fid a hnot => rfl, fun hnd effs hbal b' hb' => ?_⟩
        simpa using hbal b' hb'

theorem countTouch_gc_axis (w : Int) (ax : Nat) (v : Int) (ok : Bool)
    (fid : Nat) (a : TouchAction) :
    countTouch [Effect.pushMsg (ControlMsg.gcAxis w ax v) ok] fid a = 0 := rfl

theorem countTouch_gc_button (w : Int) (bt st : Nat) (ok : Bool)
    (fid : Nat) (a : TouchAction) :
    countTouch [Effect.pushMsg (ControlMsg.gcButton w bt st) ok] fid a = 0 := rfl

/-- Helper: balance depends only on the finger id and touch state of each
button. -/
theorem buttonsBalanced_congr (effs : List Effect)
    (btns btns' : List sc_gptm_touch_button)
    (hfid : btns'.map (fun b => b.finger_id) = btns.map (fun b => b.finger_id))
    (hdown : btns'.map (fun b => b.touch_down) = btns.map (fun b => b.touch_down))
    (h : ∀ b ∈ btns, balancedFor effs b.finger_id b.touch_down) :
    ∀ b ∈ btns', balancedFor effs b.finger_id b.touch_down := by
  intro b hb
  obtain ⟨j, hj, rfl⟩ := List.mem_iff_getElem.mp hb
  have hlen : btns'.length = btns.length := by
    have := congrArg List.length hfid
    simpa using this
  have hj2 : j < btns.length := by omega
  have e1 : btns'[j].finger_id = btns[j].finger_id := by
    have h1 := congrArg (fun l => l[j]?) hfid
    simp only [List.getElem?_map] at h1
    rw [List.getElem?_eq_getElem hj, List.getElem?_eq_getElem hj2] at h1
    simpa using h1
  have e2 : btns'[j].touch_down = btns[j].touch_down := by
    have h1 := congrArg (fun l => l[j]?) hdown
    simp only [List.getElem?_map] at h1
    rw [List.getElem?_eq_getElem hj, List.getElem?_eq_getElem hj2] at h1
    simpa using h1
  rw [e1, e2]
  exact h btns[j] (List.getElem_mem hj2)

/-- Helper: a walk-control update preserves the finger ids and every
DOWN/UP balance of the map. -/
theorem mapstep_walk (im : IMState) (m : sc_gptm_gamepad_touchmap)
    (q : List Bool) (ix : Bool) (v : Int) (hnd : (touchmapFids m).Nodup) :
    touchmapFids { m with walk := (sc_handle_touchmap_walk im m.walk q ix v).1 } =
      touchmapFids m ∧
    ∀ effs, touchmapBalanced effs m →
      touchmapBalanced (effs ++ (sc_handle_touchmap_walk im m.walk q ix v).2.2)
        { m with walk := (sc_handle_touchmap_walk im m.walk q ix v).1 } := by
  obtain ⟨hfid, hzero, hstep⟩ := walk_spec im m.walk q ix v
  have hwnotin : m.walk.finger_id ∉ m.buttons.map (fun b => b.finger_id) :=
    (List.nodup_cons.mp hnd).1
  constructor
  · simp [touchmapFids, hfid]
  · intro effs hbal
    constructor
    · show balancedFor _ (sc_handle_touchmap_walk im m.walk q ix v).1.finger_id _
      rw [hfid]
      exact balancedFor_append_step _ _ _ _ _ hstep hbal.1
    · intro b hb
      have hneq : b.finger_id ≠ m.walk.finger_id :=
        fun hEq => hwnotin (hEq ▸ List.mem_map_of_mem _ hb)
      exact balancedFor_append_zero _ _ _ _ (hzero _ _ hneq) (hzero _ _ hneq)
        (hbal.2 b hb)

/-- Helper: a skill-cast pass preserves the finger ids and every DOWN/UP
balance of the map. -/
theorem mapstep_skill (im : IMState) (m : sc_gptm_gamepad_touchmap)
    (q : List Bool) (ix : Bool) (v : Int) :
    touchmapFids { m with
        buttons := (skillCastLoop im m.buttons q ix v).1 } = touchmapFids m ∧
    ∀ effs, touchmapBalanced effs m →
      touchmapBalanced (effs ++ (skillCastLoop im m.buttons q ix v).2.2)
        { m with buttons := (skillCastLoop im m.buttons q ix v).1 } := by
  obtain ⟨hfid, hdown, hzero⟩ := skillCastLoop_spec im ix v m.buttons q
  constructor
  · simp [touchmapFids, hfid]
  · intro effs hbal
    constructor
    · exact balancedFor_append_zero _ _ _ _ (hzero _).1 (hzero _).2 hbal.1
    · exact buttonsBalanced_congr _ _ _ hfid hdown
        (fun b hb => balancedFor_append_zero _ _ _ _ (hzero _).1 (hzero _).2
          (hbal.2 b hb))

/-- Helper: a button toggle preserves the finger ids and every DOWN/UP
balance of the map. -/
theorem mapstep_button (im : IMState) (m : sc_gptm_gamepad_touchmap)
    (q : List Bool) (btn st : Nat) (hnd : (touchmapFids m).Nodup) :
    touchmapFids { m with
        buttons := (sc_handle_touchmap_button im m.buttons q btn st).1 } =
      touchmapFids m ∧
    ∀ effs, touchmapBalanced effs m →
      touchmapBalanced
        (effs ++ (sc_handle_touchmap_button im m.buttons q btn st).2.2)
        { m with buttons := (sc_handle_touchmap_button im m.buttons q btn st).1 } := by
  obtain ⟨hfid, hzero, hbalstep⟩ := button_spec im m.buttons q btn st
  have hparts := List.nodup_cons.mp hnd
  constructor
  · simp [touchmapFids, hfid]
  · intro effs hbal
    constructor
    · exact balancedFor_append_zero _ _ _ _ (hzero _ _ hparts.1) (hzero _ _ hparts.1)
        hbal.1
    · exact hbalstep hparts.2 effs hbal.2

/-- Helper: one gamepad event keeps the touchmap present with unchanged
finger ids and extends every DOWN/UP balance. -/
theorem handle_gamepad_spec (im : IMState) (env : Env) (q : List Bool)
    (ev : SCEvent) (hg : isGamepadEvent ev = true)
    (m : sc_gptm_gamepad_touchmap) (hm : im.game_touchmap = some m)
    (hnd : (touchmapFids m).Nodup) :
    ∃ m', (sc_input_manager_handle_event im env q ev).1.game_touchmap = some m' ∧
      touchmapFids m' = touchmapFids m ∧
      ∀ effs, touchmapBalanced effs m →
        touchmapBalanced (effs ++ (sc_input_manager_handle_event im env q ev).2.2)
          m' := by
  cases ev with
  | key e => simp [isGamepadEvent] at hg
  | mouseMotion e => simp [isGamepadEvent] at hg
  | mouseButton e => simp [isGamepadEvent] at hg
  | caxis which axis value =>
    simp only [sc_input_manager_handle_event]
    cases hctl : im.controller with
    | false =>
      simp only [hctl, Bool.not_false, if_true]
      exact ⟨m, hm, rfl, fun effs hb => by simpa using hb⟩
    | true =>
      simp only [hctl, Bool.not_true, Bool.false_eq_true, if_false]
      unfold dispatchControllerAxis
      cases hfwd : im.forward_game_controllers with
      | true =>
        simp only [hfwd, if_true, pushE]
        refine ⟨m, hm, rfl, fun effs hb => ⟨?_, fun b hbm => ?_⟩⟩
        · exact balancedFor_append_zero _ _ _ _ (countTouch_gc_axis _ _ _ _ _ _)
            (countTouch_gc_axis _ _ _ _ _ _) hb.1
        · exact balancedFor_append_zero _ _ _ _ (countTouch_gc_axis _ _ _ _ _ _)
            (countTouch_gc_axis _ _ _ _ _ _) (hb.2 b hbm)
      | false =>
        simp only [hfwd, Bool.false_eq_true, if_false, hm]
        split_ifs with ha1 ha2 ha3
        · exact ⟨_, rfl, (mapstep_walk im m q _ value hnd).1,
            (mapstep_walk im m q _ value hnd).2⟩
        · exact ⟨_, rfl, (mapstep_skill im m q _ value).1,
            (mapstep_skill im m q _ value).2⟩
        · exact ⟨_, rfl, (mapstep_button im m q _ _ hnd).1,
            (mapstep_button im m q _ _ hnd).2⟩
        · exact ⟨m, hm, rfl, fun effs hb => by simpa using hb⟩
  | cbutton which button state =>
    simp only [sc_input_manager_handle_event]
    cases hctl : im.controller with
    | false =>
      simp only [hctl, Bool.not_false, if_true]
      exact ⟨m, hm, rfl, fun effs hb => by simpa using hb⟩
    | true =>
      simp only [hctl, Bool.not_true, Bool.false_eq_true, if_false]
      unfold dispatchControllerButton
      cases hfwd : im.forward_game_controllers with
      | true =>
        simp only [hfwd, if_true, pushE]
        refine ⟨m, hm, rfl, fun effs hb => ⟨?_, fun b hbm => ?_⟩⟩
        · exact balancedFor_append_zero _ _ _ _ (countTouch_gc_button _ _ _ _ _ _)
            (countTouch_gc_button _ _ _ _ _ _) hb.1
        · exact balancedFor_append_zero _ _ _ _ (countTouch_gc_button _ _ _ _ _ _)
            (countTouch_gc_button _ _ _ _ _ _) (hb.2 b hbm)
      | false =>
        simp only [hfwd, Bool.false_eq_true, if_false, hm]
        exact ⟨_, rfl, (mapstep_button im m q _ _ hnd).1,
          (mapstep_button im m q _ _ hnd).2⟩

/-- Helper: the parity invariant is maintained across any sequence of
gamepad events. -/
theorem runEvents_parity (env : Env) (evs : List SCEvent) :
    ∀ (im : IMState) (q : List Bool) (m : sc_gptm_gamepad_touchmap),
    im.game_touchmap = some m →
    (∀ e ∈ evs, isGamepadEvent e = true) →
    (touchmapFids m).Nodup →
    ∀ effs, touchmapBalanced effs m →
    ∃ m', (runEvents im env q evs).1.game_touchmap = some m' ∧
      touchmapFids m' = touchmapFids m ∧
      touchmapBalanced (effs ++ (runEvents im env q evs).2.2) m' := by
  induction evs with
  | nil =>
    intro im q m hm hg hnd effs hbal
    exact ⟨m, by simpa [runEvents] using hm, rfl, by simpa [runEvents] using hbal⟩
  | cons e rest ih =>
    intro im q m hm hg hnd effs hbal
    obtain ⟨m1, hm1, hfids1, hb1⟩ :=
      handle_gamepad_spec im env q e (hg e (by simp)) m hm hnd
    rcases hev : sc_input_manager_handle_event im env q e with ⟨im1, q1, d1⟩
    rw [hev] at hm1 hb1
    obtain ⟨m2, hm2, hfids2, hb2⟩ := ih im1 q1 m1 hm1
      (fun x hx => hg x (by simp [hx]))
      (by rw [hfids1]; exact hnd) (effs ++ d1) (hb1 effs hbal)
    rcases hrec : runEvents im1 env q1 rest with ⟨im2', q2, d2⟩
    rw [hrec] at hm2 hb2
    refine ⟨m2, ?_, hfids2.trans hfids1, ?_⟩
    · unfold runEvents
      simp only [hev, hrec]
      exact hm2
    · unfold runEvents
      simp only [hev, hrec]
      rw [← List.append_assoc]
      exact hb2

/-- C1 as stated fails on the code: with a push oracle refusing the first
push, pressing button A on a freshly loaded map sets touch_down yet no
message reaches the queue, so the count of actually sent DOWN messages
for finger 101 does not exceed the sent UP count by one. -/
theorem touchmap_parity_sent_fails_on_push_failure :
    ¬(countSentTouch (runEvents { baseIM with game_touchmap := some btnDemoMap }
        demoEnv [false] [SCEvent.cbutton 0 0 1]).2.2 101 TouchAction.down =
      countSentTouch (runEvents { baseIM with game_touchmap := some btnDemoMap }
        demoEnv [false] [SCEvent.cbutton 0 0 1]).2.2 101 TouchAction.up + 1) ∧
    (runEvents { baseIM with game_touchmap := some btnDemoMap }
        demoEnv [false] [SCEvent.cbutton 0 0 1]).1.game_touchmap =
      some { btnDemoMap with
        buttons := [{ center := { x := 50, y := 50 }, radius := 0,
                      current_pos := { x := 0, y := 0 }, touch_down := true,
                      finger_id := 101, button := 0, is_skill := false }] } := by
  decide

/-- C1 amended: for every control of a freshly loaded touchmap with
pairwise distinct finger ids, after any sequence of gamepad axis and
button events the number of DOWN messages submitted to the outbound
queue for its finger id (counting attempted pushes whether or not they
are delivered) equals the number of submitted UP messages, plus one
exactly when the control ends with touch_down set. -/
theorem touchmap_down_up_parity (im : IMState) (env : Env) (q : List Bool)
    (evs : List SCEvent) (m : sc_gptm_gamepad_touchmap)
    (hm : im.game_touchmap = some m)
    (hg : ∀ e ∈ evs, isGamepadEvent e = true)
    (hnd : (touchmapFids m).Nodup)
    (hfresh : allReleased m) :
    ∃ m', (runEvents im env q evs).1.game_touchmap = some m' ∧
      touchmapFids m' = touchmapFids m ∧
      touchmapBalanced (runEvents im env q evs).2.2 m' := by
  have hbal0 : touchmapBalanced [] m := by
    obtain ⟨hw, hb⟩ := hfresh
    exact ⟨by simp [balancedFor, countTouch, hw],
      fun b hbmem => by simp [balancedFor, countTouch, hb b hbmem]⟩
  obtain ⟨m', h1, h2, h3⟩ := runEvents_parity env evs im q m hm hg hnd [] hbal0
  exact ⟨m', h1, h2, by simpa using h3⟩

/-- Witness for C1: one press of button A on the loaded demo map. -/
theorem touchmap_down_up_parity_witness :
    ∃ m', (runEvents { baseIM with game_touchmap := some btnDemoMap } demoEnv []
        [SCEvent.cbutton 0 0 1]).1.game_touchmap = some m' ∧
      touchmapFids m' = touchmapFids btnDemoMap ∧
      touchmapBalanced (runEvents { baseIM with game_touchmap := some btnDemoMap }
        demoEnv [] [SCEvent.cbutton 0 0 1]).2.2 m' :=
  touchmap_down_up_parity _ demoEnv [] [SCEvent.cbutton 0 0 1] btnDemoMap
    rfl (by decide) (by decide) ⟨rfl, by decide⟩

/-- Witness for C9: a Ctrl+left-click DOWN whose push succeeds delivers a
virtual-finger message (and indeed activates the engine). -/
theorem vfinger_down_transitions_only_on_push_success_witness :
    vfingerPushDelivered (sc_input_manager_process_mouse_button baseIM
      { demoEnv with keymod := KMOD_LCTRL } []
      { which := 0, button := 1, clicks := 1, down := true, x := 200, y := 300 }).2.2
      = true :=
  (vfinger_down_transitions_only_on_push_success baseIM
    { demoEnv with keymod := KMOD_LCTRL } []
    { which := 0, button := 1, clicks := 1, down := true, x := 200, y := 300 }).1
    (by decide)

end Scrcpy

namespace Scrcpy

/-- Loop invariant of the button_mappings loop of parse_touchmap_config:
when every entry has both "touch" and "button", every entry produces a
button and the loop hands out consecutive finger ids starting at fid. -/

theorem parseButtonEntries_complete :
    ∀ (items : List JVal) (fid : Nat), items.all buttonEntryComplete = true →
    ∃ l, parseButtonEntries items fid = some (l, fid + items.length) ∧
      l.map (fun b => b.finger_id) = List.range' fid items.length := by
  intro items
  induction items with
  | nil => intro fid h; exact ⟨[], rfl, by simp⟩
  | cons item rest ih =>
    intro fid h
    rw [List.all_cons, Bool.and_eq_true] at h
    obtain ⟨h1, h2⟩ := h
    unfold buttonEntryComplete at h1
    cases ht : cJSON_GetObjectItem item "touch" with
    | none => simp only [ht, Bool.false_eq_true] at h1
    | some center =>
      cases hb : cJSON_GetObjectItem item "button" with
      | none => simp only [ht, hb, Bool.false_eq_true] at h1
      | some trigger =>
        simp only [ht, hb, Bool.and_eq_true] at h1
        obtain ⟨⟨hx, hy⟩, hs⟩ := h1
        obtain ⟨jx, hjx⟩ := Option.isSome_iff_exists.mp hx
        obtain ⟨jy, hjy⟩ := Option.isSome_iff_exists.mp hy
        obtain ⟨nm, hnm⟩ := Option.isSome_iff_exists.mp hs
        obtain ⟨l, hl, hmap⟩ := ih (fid + 1) h2
        refine ⟨{ center := { x := valueint jx, y := valueint jy }, radius := 0,
                  current_pos := zeroPoint, touch_down := false, finger_id := fid,
                  button := toU8 (button_name_to_value nm),
                  is_skill := false } :: l, ?_, ?_⟩
        · unfold parseButtonEntries
          simp only [ht, hb, hjx, hjy, hnm, hl, Option.map_some']
          have harith : fid + 1 + rest.length = fid + (rest.length + 1) := by omega
          rw [harith]
          rfl
        · simp only [List.map_cons, hmap, List.length_cons, List.range'_succ]

/-- Loop invariant of the skill_casting loop: when every entry has
"center", "radius" and "button", every entry produces a skill button and
the loop hands out consecutive finger ids starting at fid. -/
theorem parseSkillEntries_complete :
    ∀ (items : List JVal) (fid : Nat), items.all skillEntryComplete = true →
    ∃ l, parseSkillEntries items fid = some (l, fid + items.length) ∧
      l.map (fun b => b.finger_id) = List.range' fid items.length := by
  intro items
  induction items with
  | nil => intro fid h; exact ⟨[], rfl, by simp⟩
  | cons item rest ih =>
    intro fid h
    rw [List.all_cons, Bool.and_eq_true] at h
    obtain ⟨h1, h2⟩ := h
    unfold skillEntryComplete at h1
    cases hc : cJSON_GetObjectItem item "center" with
    | none => simp only [hc, Bool.false_eq_true] at h1
    | some center =>
      cases hr : cJSON_GetObjectItem item "radius" with
      | none => simp only [hc, hr, Bool.false_eq_true] at h1
      | some radius =>
        cases hb : cJSON_GetObjectItem item "button" with
        | none => simp only [hc, hr, hb, Bool.false_eq_true] at h1
        | some trigger =>
          simp only [hc, hr, hb, Bool.and_eq_true] at h1
          obtain ⟨⟨hx, hy⟩, hs⟩ := h1
          obtain ⟨jx, hjx⟩ := Option.isSome_iff_exists.mp hx
          obtain ⟨jy, hjy⟩ := Option.isSome_iff_exists.mp hy
          obtain ⟨nm, hnm⟩ := Option.isSome_iff_exists.mp hs
          obtain ⟨l, hl, hmap⟩ := ih (fid + 1) h2
          refine ⟨{ center := { x := valueint jx, y := valueint jy },
                    radius := valueint radius,
                    current_pos := zeroPoint, touch_down := false, finger_id := fid,
                    button := toU8 (button_name_to_value nm),
                    is_skill := true } :: l, ?_, ?_⟩
          · unfold parseSkillEntries
            simp only [hc, hr, hb, hjx, hjy, hnm, hl, Option.map_some']
            have harith : fid + 1 + rest.length = fid + (rest.length + 1) := by omega
            rw [harith]
            rfl
          · simp only [List.map_cons, hmap, List.length_cons, List.range'_succ]

theorem parseWalkControl_complete (mp : JVal)
    (h : walkControlComplete mp = true) (fid : Nat) :
    ∃ w, parseWalkControl mp fid = some (w, fid + 1) ∧ w.finger_id = fid := by
  unfold walkControlComplete at h
  cases hw : cJSON_GetObjectItem mp "walk_control" with
  | none => simp only [hw, Bool.false_eq_true] at h
  | some wc =>
    cases hc : cJSON_GetObjectItem wc "center" with
    | none => simp only [hw, hc, Bool.false_eq_true] at h
    | some center =>
      cases hr : cJSON_GetObjectItem wc "radius" with
      | none => simp only [hw, hc, hr, Bool.false_eq_true] at h
      | some radius =>
        simp only [hw, hc, hr, Bool.and_eq_true] at h
        obtain ⟨hx, hy⟩ := h
        obtain ⟨jx, hjx⟩ := Option.isSome_iff_exists.mp hx
        obtain ⟨jy, hjy⟩ := Option.isSome_iff_exists.mp hy
        refine ⟨{ center := { x := valueint jx, y := valueint jy },
                  radius := valueint radius, current_pos := zeroPoint,
                  touch_down := false, finger_id := fid }, ?_, rfl⟩
        unfold parseWalkControl
        simp only [hw, hc, hr, hjx, hjy]


/-- C5 (amended): for every JSON accepted by parse_touchmap_config whose
mappings object has a complete walk_control (center.x, center.y, radius
all present) and only complete button_mappings and skill_casting entries,
the walk control receives finger id SC_GPTM_BASE_FINGER_ID = 100 and the
buttons receive, in some order, exactly the consecutive ids 101 .. 100 +
button_cnt, so all finger ids of the map are pairwise distinct. The
original claim, that every accepted map is numbered this way, fails when
walk_control is missing or an entry is incomplete: the skipped control
keeps the memset finger id 0 and later controls shift down. -/

theorem finger_id_allocation (j mp : JVal)
    (h1 : cJSON_GetObjectItem j "mappings" = some mp)
    (h2 : walkControlComplete mp = true)
    (h3 : (entriesOf mp "button_mappings").all buttonEntryComplete = true)
    (h4 : (entriesOf mp "skill_casting").all skillEntryComplete = true) :
    ∃ m, parse_touchmap_config (some j) = some m ∧
      m.walk.finger_id = SC_GPTM_BASE_FINGER_ID ∧
      (m.buttons.map (fun b => b.finger_id)).Perm
        (List.range' (SC_GPTM_BASE_FINGER_ID + 1) m.buttons.length) ∧
      (touchmapFids m).Nodup := by
  obtain ⟨w, hw, hwfid⟩ := parseWalkControl_complete mp h2 SC_GPTM_BASE_FINGER_ID
  obtain ⟨bl, hbl, hblmap⟩ := parseButtonEntries_complete
    (entriesOf mp "button_mappings") (SC_GPTM_BASE_FINGER_ID + 1) h3
  obtain ⟨sl, hsl, hslmap⟩ := parseSkillEntries_complete
    (entriesOf mp "skill_casting")
    (SC_GPTM_BASE_FINGER_ID + 1 + (entriesOf mp "button_mappings").length) h4
  have hlb : bl.length = (entriesOf mp "button_mappings").length := by
    have := congrArg List.length hblmap
    simpa using this
  have hls : sl.length = (entriesOf mp "skill_casting").length := by
    have := congrArg List.length hslmap
    simpa using this
  have hparse : parse_touchmap_config (some j) =
      some { walk := w, buttons := sortButtons (bl ++ sl) } := by
    unfold parse_touchmap_config
    simp only [h1, hw, hbl, hsl]
    simp [hlb, hls, Nat.sub_self]
  have hmapfid : ((bl ++ sl).map (fun b => b.finger_id)) =
      List.range' (SC_GPTM_BASE_FINGER_ID + 1)
        ((entriesOf mp "button_mappings").length +
         (entriesOf mp "skill_casting").length) := by
    rw [List.map_append, hblmap, hslmap]
    have := List.range'_append (SC_GPTM_BASE_FINGER_ID + 1)
      (entriesOf mp "button_mappings").length
      (entriesOf mp "skill_casting").length 1
    simp only [one_mul] at this
    rw [this, Nat.add_comm ((entriesOf mp "skill_casting").length)]
  have hlen : (sortButtons (bl ++ sl)).length =
      (entriesOf mp "button_mappings").length +
      (entriesOf mp "skill_casting").length := by
    unfold sortButtons
    rw [List.length_insertionSort, List.length_append, hlb, hls]
  have hperm : ((sortButtons (bl ++ sl)).map (fun b => b.finger_id)).Perm
      (List.range' (SC_GPTM_BASE_FINGER_ID + 1) (sortButtons (bl ++ sl)).length) := by
    rw [hlen, ← hmapfid]
    exact List.Perm.map _ (List.perm_insertionSort _ _)
  refine ⟨{ walk := w, buttons := sortButtons (bl ++ sl) }, hparse, hwfid, hperm, ?_⟩
  rw [touchmapFids, List.nodup_cons]
  constructor
  · intro hmem
    rw [hwfid] at hmem
    have := hperm.mem_iff.mp hmem
    rw [List.mem_range'] at this
    obtain ⟨k, hk, hEq⟩ := this
    omega
  · exact hperm.nodup_iff.mpr (List.nodup_range' _ _)


/-- C5 counterexample to the unconditional claim: a map accepted without a
walk_control section leaves the walk finger id 0, not 100. -/
theorem finger_id_allocation_cex :
    parse_touchmap_config (some noWalkJson) = some noWalkMap ∧
    ¬ noWalkMap.walk.finger_id = SC_GPTM_BASE_FINGER_ID := by
  decide

/-- C5 witness: the amended theorem applied to the complete demo file. -/
theorem finger_id_allocation_witness :
    cJSON_GetObjectItem fullDemoJson "mappings" = some fullDemoMappings ∧
    walkControlComplete fullDemoMappings = true ∧
    (entriesOf fullDemoMappings "button_mappings").all buttonEntryComplete = true ∧
    (entriesOf fullDemoMappings "skill_casting").all skillEntryComplete = true ∧
    (∃ m, parse_touchmap_config (some fullDemoJson) = some m ∧
      m.walk.finger_id = SC_GPTM_BASE_FINGER_ID ∧
      (m.buttons.map (fun b => b.finger_id)).Perm
        (List.range' (SC_GPTM_BASE_FINGER_ID + 1) m.buttons.length) ∧
      (touchmapFids m).Nodup) :=
  ⟨rfl, by decide, by decide, by decide,
   finger_id_allocation fullDemoJson fullDemoMappings rfl (by decide)
     (by decide) (by decide)⟩

end Scrcpy
